import Mathlib

/-!
# Song service: a shallow embedding of `src/src/server.js`

The request handlers of the Express application and the connection manager
`connectDB` are embedded as pure functions over an explicit store state.

Modelling conventions.

* The collection `songs` is a list of documents in insertion order.
* Everything a handler awaits from outside (the clock, the identifier the
  driver generates for a new document, the value of `NODE_ENV`, a store call
  that rejects) is passed in through a `Ctx` value.
* A JavaScript number is a value of `JsNumber`: `NaN`, an infinity, or an
  integer, which every operation rounds to the nearest IEEE double (ties to
  even). The service never computes a fraction, and negative zero, which no
  handler lets through, is identified with zero. A stored `plays` is such a
  double too, which is how the driver writes a number set by an update.
* The behaviour of Mongoose that the handlers rely on (casting of `_id`,
  schema validators, `$inc`, the treatment of `limit`) is written out as
  definitions next to the schema it is configured by.
* The message texts of the errors raised by the engine and by Mongoose are
  representative; a handler forwards them only when `NODE_ENV` is
  `development`, and no statement below depends on their wording.
-/

namespace SongService

/-! ## ECMAScript string primitives -/

/-- ECMAScript `WhiteSpace` and `LineTerminator` code points, the characters removed by
`String.prototype.trim` and skipped by `parseInt`. -/
def isWhiteSpace (c : Char) : Bool :=
  decide (c.toNat ∈ [9, 10, 11, 12, 13, 32, 160, 5760, 8232, 8233, 8239, 8287, 12288, 65279])
    || (decide (8192 ≤ c.toNat) && decide (c.toNat ≤ 8202))

/-- Leading white space removed. -/
def trimStart (cs : List Char) : List Char :=
  cs.dropWhile isWhiteSpace

/-- Trailing white space removed. -/
def trimEnd (cs : List Char) : List Char :=
  (trimStart cs.reverse).reverse

/-- The method `String.prototype.trim`. -/
def trim (s : String) : String :=
  String.mk (trimEnd (trimStart s.data))

/-- The method `String.prototype.includes` on character lists. -/
def includesChars (s sub : List Char) : Bool :=
  s.tails.any (fun t => sub.isPrefixOf t)

/-- The method `String.prototype.includes`. -/
def includes (s sub : String) : Bool :=
  includesChars s.data sub.data

/-- Value of a character as a digit in some radix up to 36. -/
def digitValue (c : Char) : Option Nat :=
  if 48 ≤ c.toNat ∧ c.toNat ≤ 57 then some (c.toNat - 48)
  else if 97 ≤ c.toNat ∧ c.toNat ≤ 122 then some (c.toNat - 97 + 10)
  else if 65 ≤ c.toNat ∧ c.toNat ≤ 90 then some (c.toNat - 65 + 10)
  else none

/-- The longest run of radix-`R` digits at the head of `cs`, as digit values. -/
def takeDigits (R : Nat) : List Char → List Nat
  | [] => []
  | c :: cs =>
    match digitValue c with
    | some d => if d < R then d :: takeDigits R cs else []
    | none => []

/-- The integer a list of radix-`R` digit values denotes. -/
def digitsValue (R : Nat) (ds : List Nat) : Nat :=
  ds.foldl (fun acc d => acc * R + d) 0

/-- The sign step of `parseInt`: a leading minus or plus sign is consumed. -/
def splitSign : List Char → Bool × List Char
  | '-' :: cs => (true, cs)
  | '+' :: cs => (false, cs)
  | cs => (false, cs)

/-- The radix step of `parseInt` called without a radix: radix sixteen after a leading
`0x` or `0X`, ten otherwise. -/
def splitRadix : List Char → Nat × List Char
  | '0' :: 'x' :: cs => (16, cs)
  | '0' :: 'X' :: cs => (16, cs)
  | cs => (10, cs)

/-! ## ECMAScript numbers -/

/-- The Number values the service computes with. -/
inductive JsNumber where
  | nan
  | negInf
  | int (n : Int)
  | posInf
deriving DecidableEq, Repr

/-- Number of binary digits of `n`, for `n` below `2^fuel`. -/
def bitLengthAux : Nat → Nat → Nat
  | 0, _ => 0
  | fuel + 1, n => if n = 0 then 0 else bitLengthAux fuel (n / 2) + 1

/-- Number of binary digits of a natural number below `2^1100`. -/
def bitLength (n : Nat) : Nat :=
  bitLengthAux 1100 n

/-- The bound `2^1024`, written as a product of four factors `2^256`: a magnitude that
rounds to it or lies above it is no finite double. -/
def doubleOverflow : Nat :=
  2 ^ 256 * 2 ^ 256 * 2 ^ 256 * 2 ^ 256

/-- The Number nearest to a natural number: exact below `2^53`, otherwise rounded to 53
significant binary digits with ties to the even significand, and `Infinity` from
`2^1024` on. -/
def roundNat (n : Nat) : JsNumber :=
  if n < 2 ^ 53 then .int n
  else if doubleOverflow ≤ n then .posInf
  else
    let e := bitLength n - 53
    let q := n / 2 ^ e
    let r := n % 2 ^ e
    let m := (if 2 ^ e < 2 * r ∨ (2 * r = 2 ^ e ∧ q % 2 = 1) then q + 1 else q) * 2 ^ e
    if doubleOverflow ≤ m then .posInf else .int m

/-- The Number nearest to an integer. -/
def roundInt (z : Int) : JsNumber :=
  if z < 0 then
    match roundNat z.natAbs with
    | .int m => .int (-m)
    | _ => .negInf
  else roundNat z.natAbs

/-- The sum `x + 1` of Numbers, as the update operator `$inc` computes it on a field
holding a double. -/
def JsNumber.addOne : JsNumber → JsNumber
  | .int n => roundInt (n + 1)
  | x => x

/-- The comparison `x < 0`. -/
def JsNumber.isNegative : JsNumber → Bool
  | .negInf => true
  | .int n => decide (n < 0)
  | _ => false

/-- The expression `Math.max(0, x)`. -/
def mathMaxZero : JsNumber → JsNumber
  | .nan => .nan
  | .negInf => .int 0
  | .int n => .int (max 0 n)
  | .posInf => .posInf

/-- The expression `x || d` for a Number `x`: `NaN` and zero are falsy. -/
def numberOr (x : JsNumber) (d : JsNumber) : JsNumber :=
  match x with
  | .nan => d
  | .int n => if n = 0 then d else .int n
  | y => y

/-- The order in which the store sorts numbers: `NaN` first, then the negative infinity,
the finite numbers in their order, and the positive infinity. -/
def JsNumber.sortLe : JsNumber → JsNumber → Bool
  | .nan, _ => true
  | .negInf, .nan => false
  | .negInf, _ => true
  | .int _, .nan => false
  | .int _, .negInf => false
  | .int a, .int b => decide (a ≤ b)
  | .int _, .posInf => true
  | .posInf, .posInf => true
  | .posInf, _ => false

/-- The global function `parseInt` on the string its argument converts to: white space
is skipped, a sign and a `0x` are read, the longest run of digits is taken, and the integer
it denotes is rounded to the nearest Number; `NaN` when there is no digit. -/
def parseIntChars (cs : List Char) : JsNumber :=
  let signed := splitSign (trimStart cs)
  let radixed := splitRadix signed.2
  let z := takeDigits radixed.1 radixed.2
  if z.isEmpty then .nan
  else if signed.1 then roundInt (-(digitsValue radixed.1 z : Int))
  else roundNat (digitsValue radixed.1 z)

/-! ## JSON values as the handlers see them -/

/-- An error value as the handlers inspect it: `error.code` and `error.message`. -/
structure JsError where
  code : Option Nat
  message : String
deriving DecidableEq, Repr

/-- A parsed JSON value. A number is carried by the text `Number::toString` gives it
(minus five is "-5", three point seven is "3.7", ten to the twenty-first is "1e+21"),
which is all that `parseInt` and truthiness observe of it. -/
inductive JsonValue where
  | null
  | bool (b : Bool)
  | num (repr : String)
  | str (s : String)
  | arr (elems : List JsonValue)
  | obj (props : List (String × JsonValue))

mutual
/-- The abstract operation `ToString` on a JSON value; `none` when it throws a
`TypeError`. A parsed object answers "[object Object]" through the method it inherits,
unless it has a member `toString` of its own: that member is no function, neither is
what `valueOf` gives a primitive, and the conversion throws. -/
def JsonValue.toJsChars : JsonValue → Option (List Char)
  | .null => some "null".data
  | .bool true => some "true".data
  | .bool false => some "false".data
  | .num r => some r.data
  | .str s => some s.data
  | .arr es => JsonValue.joinChars es
  | .obj props =>
    if (props.map Prod.fst).contains "toString" then none else some "[object Object]".data
termination_by structural v => v
/-- The method `Array.prototype.join` with a comma: `null` elements render empty. -/
def JsonValue.joinChars : List JsonValue → Option (List Char)
  | [] => some []
  | e :: es =>
    match (match e with
      | .null => some []
      | v => JsonValue.toJsChars v),
      (match es with
      | [] => some []
      | _ => (JsonValue.joinChars es).map (fun cs => ',' :: cs)) with
    | some a, some b => some (a ++ b)
    | _, _ => none
termination_by structural l => l
end

deriving instance DecidableEq for Except

/-- The error thrown when a value has no string conversion. -/
def toStringError : JsError :=
  ⟨none, "Cannot convert object to primitive value"⟩

/-- The global function `parseInt` applied to an expression that may be `undefined`; it
throws when its argument has no string conversion. -/
def parseInt (v : Option JsonValue) : Except JsError JsNumber :=
  match v with
  | none => .ok (parseIntChars "undefined".data)
  | some j =>
    match j.toJsChars with
    | some cs => .ok (parseIntChars cs)
    | none => .error toStringError

/-- The negation `!v` is false exactly on truthy values: `undefined`, `null`, `false`,
zero and the empty string are falsy. -/
def truthy (v : Option JsonValue) : Bool :=
  match v with
  | none => false
  | some .null => false
  | some (.bool b) => b
  | some (.num r) => decide (r ≠ "0")
  | some (.str s) => decide (s ≠ "")
  | some (.arr _) => true
  | some (.obj _) => true

/-- Property read `body.key` as done by the destructuring of `req.body`; `none` is
`undefined`. Only objects carry the properties the handlers ask for. -/
def JsonValue.field (body : JsonValue) (key : String) : Option JsonValue :=
  match body with
  | .obj props => props.lookup key
  | _ => none

/-- The call `v.trim()` on a defined value: only strings have the method, any other
value throws a `TypeError`. -/
def callTrim (v : JsonValue) : Except JsError String :=
  match v with
  | .str s => .ok (trim s)
  | .null => .error ⟨none, "Cannot read properties of null (reading 'trim')"⟩
  | _ => .error ⟨none, "trim is not a function"⟩

/-! ## Documents and the collection -/

/-- Value of a hexadecimal digit. -/
def hexValue (c : Char) : Option (Fin 16) :=
  match digitValue c with
  | some d => if h : d < 16 then some ⟨d, h⟩ else none
  | none => none

/-- The lower-case hexadecimal digit of a value. -/
def hexChar (d : Fin 16) : Char :=
  if d.val < 10 then Char.ofNat (48 + d.val) else Char.ofNat (87 + d.val)

/-- All characters read as hexadecimal digits, or `none` when one of them is not. -/
def hexDigits : List Char → Option (List (Fin 16))
  | [] => some []
  | c :: cs =>
    match hexValue c, hexDigits cs with
    | some d, some ds => some (d :: ds)
    | _, _ => none

/-- A document identifier: twelve bytes, kept as twenty-four hexadecimal digits. -/
def ObjectId : Type :=
  { ds : List (Fin 16) // ds.length = 24 }

instance : DecidableEq ObjectId :=
  inferInstanceAs (DecidableEq { ds : List (Fin 16) // ds.length = 24 })

/-- The text an identifier has in a response body and in a request path. -/
def ObjectId.toHexString (id : ObjectId) : String :=
  String.mk (id.val.map hexChar)

/-- Mongoose casting the path parameter to the type of `_id`: a string of twenty-four
hexadecimal digits is an identifier, anything else fails to cast. -/
def castObjectId (s : String) : Option ObjectId :=
  match hexDigits s.data with
  | some ds => if h : ds.length = 24 then some ⟨ds, h⟩ else none
  | none => none

/-- A document of the collection `songs`, with the fields of `songSchema` and the two
timestamps the schema option `timestamps` maintains. -/
structure Song where
  _id : ObjectId
  name : String
  path : String
  plays : JsNumber
  createdAt : Nat
  updatedAt : Nat
deriving DecidableEq

/-- The collection, in insertion order. -/
abbrev Db : Type := List Song

/-- A key under which an index files a document. -/
inductive IndexKey where
  | text (s : String)
  | number (n : JsNumber)
deriving DecidableEq

/-- The fields `songSchema` declares an index on. -/
inductive IndexedField where
  | name
  | plays
deriving DecidableEq

/-- An index declaration: the field, its direction and whether the index is unique. -/
structure IndexSpec where
  field : IndexedField
  direction : Int
  unique : Bool
deriving DecidableEq

/-- The two calls `songSchema.index(...)`: one on `name`, one on `plays`, neither given
any option, so neither is unique. -/
def songIndexes : List IndexSpec :=
  [⟨.name, 1, false⟩, ⟨.plays, -1, false⟩]

/-- The key of a document in an index. -/
def indexKey (f : IndexedField) (s : Song) : IndexKey :=
  match f with
  | .name => .text s.name
  | .plays => .number s.plays

/-- Whether inserting `s` would break a uniqueness constraint of the collection: the
built-in one on `_id`, or a declared unique index. -/
def duplicateKey (db : Db) (s : Song) : Bool :=
  db.any (fun t => decide (t._id = s._id))
    || songIndexes.any (fun ix => ix.unique && db.any (fun t => decide (indexKey ix.field t = indexKey ix.field s)))

/-- What a handler is given from outside during one request. -/
structure Ctx where
  /-- the value of `process.env.NODE_ENV` -/
  nodeEnv : Option String
  /-- the error the awaited store call rejects with, when the store fails -/
  fault : Option JsError
  /-- the clock reading used for timestamps -/
  now : Nat
  /-- the identifier generated for a document created in this request -/
  newId : ObjectId

/-- The error raised when the path parameter does not cast to an identifier. -/
def castError (value : String) : JsError :=
  ⟨none, "Cast to ObjectId failed for value \"" ++ value ++ "\" (type string) at path \"_id\" for model \"Song\""⟩

/-- The error raised by a schema validator. -/
def validationError (path : String) : JsError :=
  ⟨none, "Validation failed: " ++ path ++ ": Path " ++ path ++ " is required."⟩

/-- The error raised by the validator `min: 0` of `plays`. -/
def minError : JsError :=
  ⟨none, "Validation failed: plays: Path plays is less than minimum allowed value (0)."⟩

/-- The error of the store for a broken uniqueness constraint. -/
def duplicateKeyError : JsError :=
  ⟨some 11000, "E11000 duplicate key error collection: songs"⟩

/-- The validator `required: true` of a string path: the value must be a non-empty string. -/
def requiredString (path : String) (value : String) : Except JsError Unit :=
  if value = "" then .error (validationError path) else .ok ()

/-- The validator `min: 0` of `plays`. -/
def minZero (plays : JsNumber) : Except JsError Unit :=
  if plays.isNegative then .error minError else .ok ()

/-- The awaited store call: it rejects when the store fails in this request. -/
def storeCall (ctx : Ctx) : Except JsError Unit :=
  match ctx.fault with
  | some e => .error e
  | none => .ok ()

/-- The query `Song.find().sort(createdAt: -1)`. -/
def sortByCreatedAtDesc (db : Db) : List Song :=
  db.insertionSort (fun a b => b.createdAt ≤ a.createdAt)

/-- The query `Song.find().sort(plays: -1)`. -/
def sortByPlaysDesc (db : Db) : List Song :=
  db.insertionSort (fun a b => JsNumber.sortLe b.plays a.plays = true)

/-- The error of the store for a limit that is no 64-bit integer. -/
def limitError : JsError :=
  ⟨some 2, "BSON field 'limit' value must be representable as a 64-bit integer"⟩

/-- The cursor method `limit`: zero means no limit, a negative number is a limit of its
absolute value, and the store refuses a number that is no 64-bit integer. -/
def applyLimit (n : JsNumber) (docs : List Song) : Except JsError (List Song) :=
  match n with
  | .int k =>
    if k = 0 then .ok docs
    else if k.natAbs < 2 ^ 63 then .ok (docs.take k.natAbs)
    else .error limitError
  | _ => .error limitError

/-- The document with the given `_id`, if any. -/
def lookupId (db : Db) (id : ObjectId) : Option Song :=
  db.find? (fun s => decide (s._id = id))

/-- The first document with the given `_id` replaced by its image under `f`. -/
def modifyId (db : Db) (id : ObjectId) (f : Song → Song) : Db :=
  match db with
  | [] => []
  | s :: rest => if s._id = id then f s :: rest else s :: modifyId rest id f

/-- The first document with the given `_id` removed. -/
def removeId (db : Db) (id : ObjectId) : Db :=
  match db with
  | [] => []
  | s :: rest => if s._id = id then rest else s :: removeId rest id

/-- The call `Song.findById(id)`. -/
def findById (ctx : Ctx) (db : Db) (id : String) : Except JsError (Option Song) := do
  let oid ← (castObjectId id).elim (.error (castError id)) .ok
  storeCall ctx
  pure (lookupId db oid)

/-- The call `new Song(name, path)` followed by `save()`: the schema trims `name`,
defaults `plays` to zero, validates the required paths, and the store inserts the
document unless a uniqueness constraint is broken. -/
def saveNewSong (ctx : Ctx) (db : Db) (name path : String) : Except JsError (Db × Song) := do
  let song : Song := ⟨ctx.newId, trim name, path, .int 0, ctx.now, ctx.now⟩
  requiredString "name" song.name
  requiredString "path" song.path
  minZero song.plays
  storeCall ctx
  if duplicateKey db song then .error duplicateKeyError
  else pure (db ++ [song], song)

/-- The object `updateData` built by the update handler. -/
structure UpdateData where
  name : Option String
  path : Option String
  plays : Option JsNumber
deriving DecidableEq

/-- The fields of `updateData` written into a document, with `updatedAt` refreshed. -/
def UpdateData.applyTo (u : UpdateData) (now : Nat) (s : Song) : Song :=
  { s with
    name := u.name.getD s.name
    path := u.path.getD s.path
    plays := u.plays.getD s.plays
    updatedAt := now }

/-- The call `Song.findByIdAndUpdate(id, updateData, new: true, runValidators: true)`:
the schema trims `name`, the validators run on the supplied paths, and the store
replaces the matching document and returns its new state. -/
def findByIdAndUpdate (ctx : Ctx) (db : Db) (id : String) (u : UpdateData) :
    Except JsError (Db × Option Song) := do
  let oid ← (castObjectId id).elim (.error (castError id)) .ok
  let u : UpdateData := { u with name := u.name.map trim }
  (u.name.elim (.ok ()) (requiredString "name"))
  (u.path.elim (.ok ()) (requiredString "path"))
  (u.plays.elim (.ok ()) minZero)
  storeCall ctx
  pure (modifyId db oid (u.applyTo ctx.now), (lookupId db oid).map (u.applyTo ctx.now))

/-- The call `Song.findByIdAndUpdate(id, $inc: plays: 1, new: true)`: one atomic store
step adding one to `plays`, with `updatedAt` refreshed. -/
def findByIdAndInc (ctx : Ctx) (db : Db) (id : String) : Except JsError (Db × Option Song) := do
  let oid ← (castObjectId id).elim (.error (castError id)) .ok
  storeCall ctx
  let inc : Song → Song := fun s => { s with plays := s.plays.addOne, updatedAt := ctx.now }
  pure (modifyId db oid inc, (lookupId db oid).map inc)

/-- The call `Song.findByIdAndDelete(id)`. -/
def findByIdAndDelete (ctx : Ctx) (db : Db) (id : String) : Except JsError (Db × Option Song) := do
  let oid ← (castObjectId id).elim (.error (castError id)) .ok
  storeCall ctx
  pure (removeId db oid, lookupId db oid)

/-! ## Responses -/

/-- The `data` member of a response body. -/
inductive Payload where
  | song (s : Song)
  | songs (l : List Song)
deriving DecidableEq

/-- A response: the status code and the members of the JSON body. -/
structure Response where
  status : Nat
  success : Bool
  message : Option String
  count : Option Nat
  data : Option Payload
  error : Option String
deriving DecidableEq

/-- The member `error` of a failure body:
`process.env.NODE_ENV === 'development' ? error.message : generic`. -/
def errorDetail (ctx : Ctx) (e : JsError) (generic : String) : String :=
  if ctx.nodeEnv = some "development" then e.message else generic

/-- The body sent by the `catch` block of a handler, with status 500. -/
def internalError (ctx : Ctx) (message : String) (e : JsError) : Response :=
  ⟨500, false, some message, none, none, some (errorDetail ctx e "Internal server error")⟩

/-- The body sent for an unknown identifier, with status 404. -/
def songNotFound : Response :=
  ⟨404, false, some "Song not found", none, none, none⟩

/-! ## The handlers of `server.js` -/

/-- Handler of `GET /api/songs`. -/
def getSongs (ctx : Ctx) (db : Db) : Db × Response :=
  match storeCall ctx with
  | .ok _ =>
    let songs := sortByCreatedAtDesc db
    (db, ⟨200, true, none, some songs.length, some (.songs songs), none⟩)
  | .error e => (db, internalError ctx "Error fetching songs" e)

/-- Handler of `GET /api/songs/:id`. -/
def getSongById (ctx : Ctx) (db : Db) (id : String) : Db × Response :=
  match findById ctx db id with
  | .ok none => (db, songNotFound)
  | .ok (some song) => (db, ⟨200, true, none, none, some (.song song), none⟩)
  | .error e => (db, internalError ctx "Error fetching song" e)

/-- The `try` block of the handler of `POST /api/songs` after its guard. -/
def postSongBody (ctx : Ctx) (db : Db) (name path : JsonValue) : Except JsError (Db × Song) := do
  let n ← callTrim name
  let p ← callTrim path
  saveNewSong ctx db n p

/-- Handler of `POST /api/songs`. -/
def postSong (ctx : Ctx) (db : Db) (body : JsonValue) : Db × Response :=
  let name := body.field "name"
  let path := body.field "path"
  if !truthy name || !truthy path then
    (db, ⟨400, false, some "Name and path are required", none, none, none⟩)
  else
    match postSongBody ctx db (name.getD .null) (path.getD .null) with
    | .ok (db', saved) =>
      (db', ⟨201, true, some "Song created successfully", none, some (.song saved), none⟩)
    | .error e =>
      if e.code = some 11000 then
        (db, ⟨400, false, some "Song with this name already exists", none, none, none⟩)
      else (db, internalError ctx "Error creating song" e)

/-- The assignments to `updateData` in the handler of `PUT /api/songs/:id`. -/
def buildUpdateData (body : JsonValue) : Except JsError UpdateData := do
  let name ← match body.field "name" with
    | none => pure none
    | some v => (callTrim v).map some
  let path ← match body.field "path" with
    | none => pure none
    | some v => (callTrim v).map some
  let plays ← match body.field "plays" with
    | none => pure none
    | some v => (parseInt (some v)).map (fun n => some (mathMaxZero (numberOr n (.int 0))))
  pure ⟨name, path, plays⟩

/-- Handler of `PUT /api/songs/:id`. -/
def putSong (ctx : Ctx) (db : Db) (id : String) (body : JsonValue) : Db × Response :=
  match buildUpdateData body >>= findByIdAndUpdate ctx db id with
  | .ok (_, none) => (db, songNotFound)
  | .ok (db', some song) =>
    (db', ⟨200, true, some "Song updated successfully", none, some (.song song), none⟩)
  | .error e => (db, internalError ctx "Error updating song" e)

/-- Handler of `PATCH /api/songs/:id/play`. -/
def patchPlay (ctx : Ctx) (db : Db) (id : String) : Db × Response :=
  match findByIdAndInc ctx db id with
  | .ok (_, none) => (db, songNotFound)
  | .ok (db', some song) =>
    (db', ⟨200, true, some "Play count updated", none, some (.song song), none⟩)
  | .error e => (db, internalError ctx "Error updating play count" e)

/-- Handler of `DELETE /api/songs/:id`. -/
def deleteSong (ctx : Ctx) (db : Db) (id : String) : Db × Response :=
  match findByIdAndDelete ctx db id with
  | .ok (_, none) => (db, songNotFound)
  | .ok (db', some song) =>
    (db', ⟨200, true, some "Song deleted successfully", none, some (.song song), none⟩)
  | .error e => (db, internalError ctx "Error deleting song" e)

/-- The limit computed by the top-N handler: `parseInt(req.query.limit) || 10`. -/
def popularLimit (limit : Option JsonValue) : Except JsError JsNumber :=
  (parseInt limit).map (fun n => numberOr n (.int 10))

/-- Handler of `GET /api/songs/stats/popular`. -/
def getPopular (ctx : Ctx) (db : Db) (limit : Option JsonValue) : Db × Response :=
  match popularLimit limit >>= fun n => storeCall ctx >>= fun _ =>
      applyLimit n (sortByPlaysDesc db) with
  | .ok songs => (db, ⟨200, true, none, some songs.length, some (.songs songs), none⟩)
  | .error e => (db, internalError ctx "Error fetching popular songs" e)

/-- The global error handler registered last with `app.use`. -/
def globalErrorHandler (ctx : Ctx) (e : JsError) : Response :=
  ⟨500, false, some "Internal server error", none, none, some (errorDetail ctx e "Something went wrong")⟩

/-- A request to one of the seven operations on songs. -/
inductive Request where
  | list
  | get (id : String)
  | create (body : JsonValue)
  | update (id : String) (body : JsonValue)
  | play (id : String)
  | delete (id : String)
  | popular (limit : Option JsonValue)

/-- The application serving one request. -/
def handle (ctx : Ctx) (db : Db) : Request → Db × Response
  | .list => getSongs ctx db
  | .get id => getSongById ctx db id
  | .create body => postSong ctx db body
  | .update id body => putSong ctx db id body
  | .play id => patchPlay ctx db id
  | .delete id => deleteSong ctx db id
  | .popular limit => getPopular ctx db limit

/-- A sequence of `PATCH /api/songs/:id/play` requests on one identifier, served one
after the other, each in its own context. -/
def patchPlays (db : Db) (id : String) : List Ctx → Db
  | [] => db
  | ctx :: rest => patchPlays (patchPlay ctx db id).1 id rest

/-! ## The seed script `init-mongo.js` -/

/-- The five documents `db.songs.insertMany` writes, given the identifiers the shell
generates and the readings of the clock. -/
def initMongo (ids : Fin 5 → ObjectId) (created updated : Fin 5 → Nat) : Db :=
  [ ⟨ids 0, "Adventure", "../songFiles/bensound-adventure.mp3", .int 0, created 0, updated 0⟩,
    ⟨ids 1, "Dreams", "../songFiles/bensound-dreams.mp3", .int 1, created 1, updated 1⟩,
    ⟨ids 2, "Energy", "../songFiles/bensound-energy.mp3", .int 2, created 2, updated 2⟩,
    ⟨ids 3, "Scifi", "../songFiles/bensound-scifi.mp3", .int 3, created 3, updated 3⟩,
    ⟨ids 4, "Tomorrow", "../songFiles/bensound-tomorrow.mp3", .int 4, created 4, updated 4⟩ ]

/-- The store states reachable from the empty collection or from the seeded one by
serving requests. -/
inductive Reachable : Db → Prop where
  | empty : Reachable []
  | seeded (ids : Fin 5 → ObjectId) (created updated : Fin 5 → Nat) :
      Reachable (initMongo ids created updated)
  | step (ctx : Ctx) (req : Request) (db : Db) :
      Reachable db → Reachable (handle ctx db req).1

/-! ## The connection manager `connectDB` -/

/-- The expression `a || b` on environment variables: the first one that is set and
non-empty, otherwise the second. -/
def envOr (a b : Option String) : Option String :=
  match a with
  | some s => if s = "" then b else some s
  | none => b

/-- The constant `mongoURI`: the four recognised variables in order. -/
def mongoURI (env : String → Option String) : Option String :=
  envOr (envOr (envOr (env "MONGODB_URI") (env "DATABASE_URL")) (env "MONGO_URL"))
    (env "MONGODB_CONNECTION_STRING")

/-- What one run of `connectDB` ends in. -/
inductive ConnectResult where
  | connected
  | stopped
  | retryIn (delayMs : Nat)
deriving DecidableEq

/-- The error thrown when no connection string is configured. -/
def uriNotDefined : JsError :=
  ⟨none, "MongoDB URI is not defined. Please set MONGODB_URI environment variable."⟩

/-- The `try` block of `connectDB`: the configuration check, then `mongoose.connect`,
whose outcome for a given connection string is the argument `connect`. -/
def connectAttempt (env : String → Option String) (connect : String → Except JsError Unit) :
    Except JsError Unit :=
  match mongoURI env with
  | none => .error uriNotDefined
  | some uri => if uri = "" then .error uriNotDefined else connect uri

/-- One run of `connectDB`: on failure the `catch` block stops when the message of the
error includes the text "not defined" and otherwise calls `setTimeout(connectDB, 5000)`. -/
def connectDB (env : String → Option String) (connect : String → Except JsError Unit) :
    ConnectResult :=
  match connectAttempt env connect with
  | .ok _ => .connected
  | .error e => if includes e.message "not defined" then .stopped else .retryIn 5000

/-- The frame condition of an operation on the record `oid`: position by position the
identifier, name and path are kept, and a record with another identifier is kept whole. -/
def OnlyTouches (oid : ObjectId) (a b : Song) : Prop :=
  b._id = a._id ∧ b.name = a.name ∧ b.path = a.path ∧ (a._id ≠ oid → b = a)

/-- What the claims ask of an operation `run` served while the store fails with `e`:
the answer is a failure with a message, the store is unchanged, and outside development
mode the member `error` is absent or the generic text and the whole answer is the same
for every error with the same code. -/
def HidesDetail (ctx : Ctx) (db : Db) (e : JsError) (run : Ctx → Db × Response) : Prop :=
  (run { ctx with fault := some e }).2.success = false
    ∧ (run { ctx with fault := some e }).2.message ≠ none
    ∧ (run { ctx with fault := some e }).1 = db
    ∧ (ctx.nodeEnv ≠ some "development" →
        ((run { ctx with fault := some e }).2.error = none
          ∨ (run { ctx with fault := some e }).2.error = some "Internal server error")
        ∧ ∀ e' : JsError, e'.code = e.code →
            run { ctx with fault := some e' } = run { ctx with fault := some e })

/-! ## Sample data used to evaluate the handlers -/

/-- The identifier whose twenty-four digits are all `d`. -/
def sampleId (d : Fin 16) : ObjectId :=
  ⟨List.replicate 24 d, List.length_replicate 24 d⟩

/-- A seeded collection with identifiers `000...0` to `444...4`. -/
def seedDb : Db :=
  initMongo (fun i => sampleId (Fin.castLE (by decide) i)) (fun _ => 0) (fun _ => 0)

/-- A request context in production mode with a working store. -/
def liveCtx (now : Nat) (newId : ObjectId) : Ctx :=
  ⟨some "production", none, now, newId⟩

/-! ## Lemmas on the collection -/

theorem lookupId_id {db : Db} {oid : ObjectId} {s : Song} (h : lookupId db oid = some s) :
    s._id = oid := by
  have := List.find?_some h
  simpa using this

theorem lookupId_mem {db : Db} {oid : ObjectId} {s : Song} (h : lookupId db oid = some s) :
    s ∈ db :=
  List.mem_of_find?_eq_some h

theorem lookupId_modifyId_self {db : Db} {oid : ObjectId} {s : Song} {f : Song → Song}
    (hf : ∀ t, (f t)._id = t._id) (h : lookupId db oid = some s) :
    lookupId (modifyId db oid f) oid = some (f s) := by
  induction db with
  | nil => simp [lookupId] at h
  | cons a rest ih =>
    by_cases ha : a._id = oid
    · have : s = a := by simpa [lookupId, List.find?, ha] using h.symm
      subst this
      simp [modifyId, lookupId, List.find?, ha, hf]
    · have h' : lookupId rest oid = some s := by simpa [lookupId, List.find?, ha] using h
      simpa [modifyId, lookupId, List.find?, ha] using ih h'

theorem lookupId_modifyId_of_ne {db : Db} {oid oid' : ObjectId} {f : Song → Song}
    (hf : ∀ t, (f t)._id = t._id) (hne : oid' ≠ oid) :
    lookupId (modifyId db oid f) oid' = lookupId db oid' := by
  induction db with
  | nil => simp [modifyId]
  | cons a rest ih =>
    by_cases ha : a._id = oid
    · have hna : ¬ a._id = oid' := fun h => hne (h.symm.trans ha)
      simp [modifyId, lookupId, List.find?, ha, hf, hna, hne.symm]
    · by_cases hb : a._id = oid'
      · have hne' : ¬ oid' = oid := hne
        simp [modifyId, lookupId, List.find?, ha, hb, hne']
      · simpa [modifyId, lookupId, List.find?, ha, hb] using ih

theorem mem_modifyId {db : Db} {oid : ObjectId} {f : Song → Song} {t : Song}
    (h : t ∈ modifyId db oid f) : t ∈ db ∨ ∃ s ∈ db, s._id = oid ∧ t = f s := by
  induction db with
  | nil => simp [modifyId] at h
  | cons a rest ih =>
    by_cases ha : a._id = oid
    · simp only [modifyId, ha, if_true, List.mem_cons] at h
      rcases h with h | h
      · exact Or.inr ⟨a, List.mem_cons_self _ _, ha, h⟩
      · exact Or.inl (List.mem_cons_of_mem _ h)
    · simp only [modifyId, ha, if_false, List.mem_cons] at h
      rcases h with h | h
      · exact Or.inl (h ▸ List.mem_cons_self _ _)
      · rcases ih h with h' | ⟨s, hs, hid, ht⟩
        · exact Or.inl (List.mem_cons_of_mem _ h')
        · exact Or.inr ⟨s, List.mem_cons_of_mem _ hs, hid, ht⟩

theorem mem_removeId {db : Db} {oid : ObjectId} {t : Song} (h : t ∈ removeId db oid) :
    t ∈ db := by
  induction db with
  | nil => simp [removeId] at h
  | cons a rest ih =>
    by_cases ha : a._id = oid
    · simp only [removeId, ha, if_true] at h
      exact List.mem_cons_of_mem _ h
    · simp only [removeId, ha, if_false, List.mem_cons] at h
      rcases h with h | h
      · exact h ▸ List.mem_cons_self _ _
      · exact List.mem_cons_of_mem _ (ih h)

/-! ## The claims -/

theorem mathMaxZero_numberOr_nonneg (x : JsNumber) :
    mathMaxZero (numberOr x (.int 0)) = .posInf
      ∨ ∃ n : Int, 0 ≤ n ∧ mathMaxZero (numberOr x (.int 0)) = .int n := by
  cases x with
  | nan => exact Or.inr ⟨0, le_refl _, rfl⟩
  | negInf => exact Or.inr ⟨0, le_refl _, rfl⟩
  | posInf => exact Or.inl rfl
  | int n =>
    by_cases h : n = 0
    · exact Or.inr ⟨0, le_refl _, by simp [numberOr, mathMaxZero, h]⟩
    · exact Or.inr ⟨max 0 n, le_max_left _ _, by simp [numberOr, mathMaxZero, h]⟩

theorem mathMaxZero_numberOr_not_negative (x : JsNumber) :
    (mathMaxZero (numberOr x (.int 0))).isNegative = false := by
  rcases mathMaxZero_numberOr_nonneg x with h | ⟨n, hn, h⟩
  · rw [h]; rfl
  · rw [h]; simp [JsNumber.isNegative, hn]

theorem findByIdAndUpdate_plays {ctx : Ctx} {db : Db} {id : String} {oid : ObjectId} {s : Song}
    {n : JsNumber} (hcast : castObjectId id = some oid) (hfound : lookupId db oid = some s)
    (hstore : ctx.fault = none) (hn : n.isNegative = false) :
    findByIdAndUpdate ctx db id ⟨none, none, some n⟩
      = .ok (modifyId db oid (fun t => { t with plays := n, updatedAt := ctx.now }),
          some { s with plays := n, updatedAt := ctx.now }) := by
  have hmin : minZero n = .ok () := by simp [minZero, hn]
  simp [findByIdAndUpdate, hcast, hfound, storeCall, hstore, hmin, bind, Except.bind, pure,
    Except.pure, Option.elim, UpdateData.applyTo]
  rfl

set_option maxRecDepth 100000 in
/-- C1, counterexample. On an existing id, with the store answering: the update body
`plays: (toString: 1)` is answered 500 "Error updating song", not 200, because the object
has a member `toString` of its own that is no function and `parseInt` throws inside the
`try`; and the update whose `plays` is a numeral of 400 digits is answered 200 but stores
Infinity, which is no integer. -/
theorem putSong_plays_object_is_500 :
    castObjectId "111111111111111111111111" = some (sampleId 1)
      ∧ (lookupId seedDb (sampleId 1)).map Song.plays = some (.int 1)
      ∧ (liveCtx 9 (sampleId 15)).fault = none
      ∧ putSong (liveCtx 9 (sampleId 15)) seedDb "111111111111111111111111"
          (.obj [("plays", .obj [("toString", .num "1")])])
        = (seedDb, ⟨500, false, some "Error updating song", none, none,
            some "Internal server error"⟩)
      ∧ (putSong (liveCtx 9 (sampleId 15)) seedDb "111111111111111111111111"
          (.obj [("plays", .str (String.mk (List.replicate 400 '9')))])).2.status = 200
      ∧ (putSong (liveCtx 9 (sampleId 15)) seedDb "111111111111111111111111"
          (.obj [("plays", .str (String.mk (List.replicate 400 '9')))])).1.map Song.plays
        = [.int 0, .posInf, .int 2, .int 3, .int 4] := by
  decide

/-- C1, amended. An update whose body supplies only `plays`, with a value that has a
string conversion, on an existing id with the store answering, is answered 200 with
success true, and the stored `plays` is `Math.max(0, n)`, where `n` is the number
`parseInt` reads from the conversion (an integer rounded to the nearest double, or
Infinity beyond the doubles) or 0 when it reads none: the result is a non-negative
integer or Infinity. The values "abc" and -5 give 0, "7" gives 7, " 42px" gives 42, "0x1F"
gives 31, 3.7 gives 3 and "9007199254740993" gives 9007199254740992; only an object with a
member `toString` of its own, alone or inside an array, has no string conversion. -/
theorem putSong_plays_coerced (ctx : Ctx) (db : Db) (id : String) (oid : ObjectId)
    (s : Song) (body v : JsonValue) (cs : List Char)
    (hcast : castObjectId id = some oid) (hfound : lookupId db oid = some s)
    (hstore : ctx.fault = none)
    (hname : body.field "name" = none) (hpath : body.field "path" = none)
    (hplays : body.field "plays" = some v) (hstr : v.toJsChars = some cs) :
    (putSong ctx db id body).2.status = 200
      ∧ (putSong ctx db id body).2.success = true
      ∧ lookupId (putSong ctx db id body).1 oid
          = some { s with
              plays := mathMaxZero (numberOr (parseIntChars cs) (.int 0)), updatedAt := ctx.now }
      ∧ (putSong ctx db id body).2.data
          = some (.song { s with
              plays := mathMaxZero (numberOr (parseIntChars cs) (.int 0)), updatedAt := ctx.now })
      ∧ (mathMaxZero (numberOr (parseIntChars cs) (.int 0)) = .posInf
          ∨ ∃ n : Int, 0 ≤ n ∧ mathMaxZero (numberOr (parseIntChars cs) (.int 0)) = .int n)
      ∧ ((JsonValue.str "abc").toJsChars = some ['a', 'b', 'c']
          ∧ mathMaxZero (numberOr (parseIntChars ['a', 'b', 'c']) (.int 0)) = .int 0)
      ∧ ((JsonValue.num "-5").toJsChars = some ['-', '5']
          ∧ parseIntChars ['-', '5'] = .int (-5)
          ∧ mathMaxZero (numberOr (parseIntChars ['-', '5']) (.int 0)) = .int 0)
      ∧ mathMaxZero (numberOr (parseIntChars ['7']) (.int 0)) = .int 7
      ∧ mathMaxZero (numberOr (parseIntChars [' ', '4', '2', 'p', 'x']) (.int 0)) = .int 42
      ∧ mathMaxZero (numberOr (parseIntChars ['0', 'x', '1', 'F']) (.int 0)) = .int 31
      ∧ ((JsonValue.num "3.7").toJsChars = some ['3', '.', '7']
          ∧ mathMaxZero (numberOr (parseIntChars ['3', '.', '7']) (.int 0)) = .int 3)
      ∧ mathMaxZero (numberOr (parseIntChars "9007199254740993".data) (.int 0))
          = .int 9007199254740992
      ∧ (JsonValue.arr [.num "8", .null, .bool true]).toJsChars = some "8,,true".data
      ∧ (JsonValue.obj [("a", .num "1")]).toJsChars = some "[object Object]".data
      ∧ (JsonValue.obj [("toString", .num "1")]).toJsChars = none
      ∧ (JsonValue.arr [.num "8", .obj [("toString", .null)]]).toJsChars = none := by
  have hparse : parseInt (some v) = .ok (parseIntChars cs) := by simp [parseInt, hstr]
  have hb : buildUpdateData body
      = .ok ⟨none, none, some (mathMaxZero (numberOr (parseIntChars cs) (.int 0)))⟩ := by
    simp [buildUpdateData, hname, hpath, hplays, hparse, bind, Except.bind, pure, Except.pure,
      Except.map]
  have hu := findByIdAndUpdate_plays
    (n := mathMaxZero (numberOr (parseIntChars cs) (.int 0))) hcast hfound hstore
    (mathMaxZero_numberOr_not_negative _)
  have hput : putSong ctx db id body
      = (modifyId db oid (fun t => { t with
            plays := mathMaxZero (numberOr (parseIntChars cs) (.int 0)), updatedAt := ctx.now }),
          ⟨200, true, some "Song updated successfully", none,
            some (.song { s with
              plays := mathMaxZero (numberOr (parseIntChars cs) (.int 0)),
              updatedAt := ctx.now }), none⟩) := by
    simp [putSong, hb, hu, bind, Except.bind]
  rw [hput]
  refine ⟨rfl, rfl, ?_, rfl, mathMaxZero_numberOr_nonneg _, by decide, by decide, by decide,
    by decide, by decide, by decide, by decide, by decide, by decide, by decide, by decide⟩
  exact lookupId_modifyId_self (fun _ => rfl) hfound

theorem putSong_plays_coerced_witness :
    putSong (liveCtx 9 (sampleId 15)) seedDb "111111111111111111111111"
        (.obj [("plays", .str "7 plays")])
      = (modifyId seedDb (sampleId 1) (fun t => { t with plays := .int 7, updatedAt := 9 }),
          ⟨200, true, some "Song updated successfully", none,
            some (.song ⟨sampleId 1, "Dreams", "../songFiles/bensound-dreams.mp3", .int 7, 0, 9⟩),
            none⟩)
      ∧ lookupId (putSong (liveCtx 9 (sampleId 15)) seedDb "111111111111111111111111"
          (.obj [("plays", .str "7 plays")])).1 (sampleId 1)
        = some ⟨sampleId 1, "Dreams", "../songFiles/bensound-dreams.mp3", .int 7, 0, 9⟩ := by
  have h := putSong_plays_coerced (liveCtx 9 (sampleId 15)) seedDb
    "111111111111111111111111" (sampleId 1)
    ⟨sampleId 1, "Dreams", "../songFiles/bensound-dreams.mp3", .int 1, 0, 0⟩
    (.obj [("plays", .str "7 plays")]) (.str "7 plays") "7 plays".data
    (by decide) (by decide) rfl rfl rfl rfl rfl
  exact ⟨by decide, h.2.2.1⟩

/-- C2. The create request with the name "   " (blank, so empty after trimming) and the
path "a.mp3" passes the guard of the handler, is refused by the validator `required` of the
schema and is answered 500 "Error creating song", where the claim asks for 400 with the
validation message; the store is unchanged. -/
theorem postSong_blank_name_is_500 (ctx : Ctx) (db : Db) :
    trim "   " = ""
      ∧ (postSong ctx db (.obj [("name", .str "   "), ("path", .str "a.mp3")])).2.status = 500
      ∧ (postSong ctx db (.obj [("name", .str "   "), ("path", .str "a.mp3")])).2.message
          = some "Error creating song"
      ∧ (postSong ctx db (.obj [("name", .str "   "), ("path", .str "a.mp3")])).1 = db := by
  refine ⟨by decide, ?_, ?_, ?_⟩ <;> rfl

/-- C3. Creating "Adventure" twice on the empty store: the second request is answered 201
and the store then holds two songs of that name, because the index on `name` is not
declared unique; the answer 400 "Song with this name already exists" is not produced. -/
theorem postSong_same_name_twice_is_201 :
    (postSong (liveCtx 2 (sampleId 11))
        (postSong (liveCtx 1 (sampleId 10)) []
          (.obj [("name", .str "Adventure"), ("path", .str "a.mp3")])).1
        (.obj [("name", .str " Adventure "), ("path", .str "b.mp3")])).2.status = 201
      ∧ (postSong (liveCtx 2 (sampleId 11))
        (postSong (liveCtx 1 (sampleId 10)) []
          (.obj [("name", .str "Adventure"), ("path", .str "a.mp3")])).1
        (.obj [("name", .str " Adventure "), ("path", .str "b.mp3")])).1.map Song.name
          = ["Adventure", "Adventure"] := by
  decide

/-- C4, counterexample. The id "abc" is not a valid identifier, the store does not fail,
and get-by-id answers 500 "Error fetching song", not 404. -/
theorem getSongById_malformed_id_is_500 :
    castObjectId "abc" = none
      ∧ (liveCtx 1 (sampleId 10)).fault = none
      ∧ (getSongById (liveCtx 1 (sampleId 10)) seedDb "abc").2
          = ⟨500, false, some "Error fetching song", none, none, some "Internal server error"⟩ := by
  decide

/-- C4, amended. Get-by-id answers 404 with success false and "Song not found" for every
well-formed id that matches no record while the store answers; for every id that is not a
valid identifier it answers 500 with success false and "Error fetching song"; and a 500
comes either from such an id or from a store failure. -/
theorem getSongById_not_found_or_cast_error (ctx : Ctx) (db : Db) (id : String) :
    (∀ oid, castObjectId id = some oid → ctx.fault = none → lookupId db oid = none →
        getSongById ctx db id = (db, ⟨404, false, some "Song not found", none, none, none⟩))
      ∧ (castObjectId id = none →
          (getSongById ctx db id).2.status = 500
            ∧ (getSongById ctx db id).2.success = false
            ∧ (getSongById ctx db id).2.message = some "Error fetching song"
            ∧ (getSongById ctx db id).1 = db)
      ∧ ((getSongById ctx db id).2.status = 500 → castObjectId id = none ∨ ctx.fault ≠ none) := by
  refine ⟨?_, ?_, ?_⟩
  · intro oid hcast hstore hnone
    simp [getSongById, findById, hcast, storeCall, hstore, hnone, bind, Except.bind, pure,
      Except.pure, Option.elim, songNotFound]
  · intro hcast
    simp [getSongById, findById, hcast, bind, Except.bind, Option.elim, internalError]
  · intro h500
    by_contra hcon
    push_neg at hcon
    obtain ⟨hc, hf⟩ := hcon
    obtain ⟨oid, hoid⟩ := Option.ne_none_iff_exists'.mp hc
    cases hl : lookupId db oid <;>
      simp [getSongById, findById, hoid, storeCall, hf, hl, bind, Except.bind, pure,
        Except.pure, Option.elim, songNotFound] at h500

theorem getSongById_not_found_or_cast_error_witness :
    getSongById (liveCtx 1 (sampleId 10)) seedDb "999999999999999999999999"
        = (seedDb, ⟨404, false, some "Song not found", none, none, none⟩)
      ∧ (getSongById (liveCtx 1 (sampleId 10)) seedDb "not-an-id").2.status = 500 :=
  ⟨(getSongById_not_found_or_cast_error (liveCtx 1 (sampleId 10)) seedDb
      "999999999999999999999999").1 (sampleId 9) (by decide) rfl (by decide),
    ((getSongById_not_found_or_cast_error (liveCtx 1 (sampleId 10)) seedDb
      "not-an-id").2.1 (by decide)).1⟩

theorem JsNumber.sortLe_total (a b : JsNumber) : a.sortLe b = true ∨ b.sortLe a = true := by
  cases a <;> cases b <;> simp [JsNumber.sortLe]
  exact le_total _ _

theorem JsNumber.sortLe_trans {a b c : JsNumber} (h₁ : a.sortLe b = true)
    (h₂ : b.sortLe c = true) : a.sortLe c = true := by
  cases a <;> cases b <;> cases c <;> simp_all [JsNumber.sortLe]
  exact le_trans h₁ h₂

theorem sortByPlaysDesc_sorted (db : Db) :
    (sortByPlaysDesc db).Pairwise (fun a b => JsNumber.sortLe b.plays a.plays = true) := by
  haveI : IsTotal Song (fun a b => JsNumber.sortLe b.plays a.plays = true) :=
    ⟨fun a b => JsNumber.sortLe_total b.plays a.plays⟩
  haveI : IsTrans Song (fun a b => JsNumber.sortLe b.plays a.plays = true) :=
    ⟨fun _ _ _ h₁ h₂ => JsNumber.sortLe_trans h₂ h₁⟩
  exact List.sorted_insertionSort (fun a b : Song => JsNumber.sortLe b.plays a.plays = true) db

theorem sortByPlaysDesc_perm (db : Db) : (sortByPlaysDesc db).Perm db :=
  List.perm_insertionSort _ db

/-- C5, counterexample. For `limit=0` the claim gives L = 0 and count 0, but the handler
falls back to 10 on a parsed zero and returns all five seeded songs; and for the query
`limit[toString]=1` the claim promises a list, but `parseInt` throws on the object and the
answer is 500. -/
theorem getPopular_limit_zero_returns_all :
    parseInt (some (.str "0")) = .ok (.int 0)
      ∧ popularLimit (some (.str "0")) = .ok (.int 10)
      ∧ (getPopular (liveCtx 1 (sampleId 10)) seedDb (some (.str "0"))).2.count = some 5
      ∧ (getPopular (liveCtx 1 (sampleId 10)) seedDb
            (some (.obj [("toString", .str "1")]))).2
          = ⟨500, false, some "Error fetching popular songs", none, none,
              some "Internal server error"⟩ := by
  decide

/-- C5, amended. With the store answering, for a `limit` whose computed value
`parseInt(limit) || 10` is a positive integer L below `2^63`, top-N answers 200 with the
songs ordered by `plays` descending and truncated to L entries; `count` is the number of
songs returned, min(L, number of songs); the songs left out sort no higher than those
returned. L is the integer `parseInt` reads from `limit`, or 10 when `limit` is absent,
does not parse or parses to 0: absent gives 10, "abc" gives 10, "0" gives 10, "2" gives 2,
"3,4" gives 3. With `limit=2` over the five seeded songs the answer is the songs with
plays 4 and 3, in that order. -/
theorem getPopular_top_by_plays (ctx : Ctx) (db : Db) (limit : Option JsonValue) (L : Int)
    (hstore : ctx.fault = none) (hL : popularLimit limit = .ok (.int L)) (hpos : 0 < L)
    (hbound : L < 2 ^ 63) :
    (∃ songs rest : List Song,
        getPopular ctx db limit
            = (db, ⟨200, true, none, some songs.length, some (.songs songs), none⟩)
          ∧ songs.Pairwise (fun a b => JsNumber.sortLe b.plays a.plays = true)
          ∧ songs.length = min L.toNat db.length
          ∧ (songs ++ rest).Perm db
          ∧ ∀ a ∈ songs, ∀ b ∈ rest, JsNumber.sortLe b.plays a.plays = true)
      ∧ (parseInt limit = .ok (.int L)
          ∨ (L = 10 ∧ (parseInt limit = .ok .nan ∨ parseInt limit = .ok (.int 0))))
      ∧ popularLimit none = .ok (.int 10)
      ∧ popularLimit (some (.str "abc")) = .ok (.int 10)
      ∧ popularLimit (some (.str "0")) = .ok (.int 10)
      ∧ popularLimit (some (.str "2")) = .ok (.int 2)
      ∧ popularLimit (some (.arr [.str "3", .str "4"])) = .ok (.int 3)
      ∧ (JsNumber.sortLe (.int 3) (.int 4) = true ∧ JsNumber.sortLe (.int 4) (.int 3) = false)
      ∧ (∀ (ids : Fin 5 → ObjectId) (created updated : Fin 5 → Nat),
          (getPopular ctx (initMongo ids created updated) (some (.str "2"))).2.data
            = some (.songs
                [⟨ids 4, "Tomorrow", "../songFiles/bensound-tomorrow.mp3", .int 4, created 4,
                    updated 4⟩,
                 ⟨ids 3, "Scifi", "../songFiles/bensound-scifi.mp3", .int 3, created 3,
                    updated 3⟩])) := by
  have hne : L ≠ 0 := ne_of_gt hpos
  have hnat : L.natAbs < 2 ^ 63 := by omega
  have htoNat : L.natAbs = L.toNat := by omega
  have hnat' : L.toNat < 9223372036854775808 := by omega
  refine ⟨?_, ?_, by decide, by decide, by decide, by decide, by decide, by decide, ?_⟩
  · refine ⟨(sortByPlaysDesc db).take L.toNat, (sortByPlaysDesc db).drop L.toNat,
      ?_, ?_, ?_, ?_, ?_⟩
    · simp [getPopular, hL, storeCall, hstore, applyLimit, hne, hnat, hnat', htoNat, bind,
        Except.bind]
    · exact (sortByPlaysDesc_sorted db).sublist (List.take_sublist _ _)
    · rw [List.length_take, (sortByPlaysDesc_perm db).length_eq]
    · rw [List.take_append_drop]
      exact sortByPlaysDesc_perm db
    · have h := sortByPlaysDesc_sorted db
      rw [← List.take_append_drop L.toNat (sortByPlaysDesc db), List.pairwise_append] at h
      exact h.2.2
  · unfold popularLimit at hL
    cases hp : parseInt limit with
    | error e => simp [hp, Except.map] at hL
    | ok x =>
      simp only [hp, Except.map, Except.ok.injEq] at hL
      cases x with
      | nan =>
        simp only [numberOr, JsNumber.int.injEq] at hL
        exact Or.inr ⟨hL.symm, Or.inl rfl⟩
      | negInf => simp [numberOr] at hL
      | posInf => simp [numberOr] at hL
      | int n =>
        by_cases hn : n = 0
        · simp only [numberOr, hn, if_true, JsNumber.int.injEq] at hL
          exact Or.inr ⟨hL.symm, Or.inr (by rw [hn])⟩
        · simp only [numberOr, hn, if_false, JsNumber.int.injEq] at hL
          exact Or.inl (by rw [hL])
  · intro ids created updated
    have h2 : popularLimit (some (.str "2")) = .ok (.int 2) := by decide
    simp [getPopular, h2, storeCall, hstore, applyLimit, sortByPlaysDesc, initMongo,
      List.insertionSort, List.orderedInsert, JsNumber.sortLe, bind, Except.bind]

theorem getPopular_top_by_plays_witness :
    getPopular (liveCtx 1 (sampleId 10)) seedDb (some (.str "2"))
        = (seedDb, ⟨200, true, none, some 2, some (.songs
            [⟨sampleId 4, "Tomorrow", "../songFiles/bensound-tomorrow.mp3", .int 4, 0, 0⟩,
             ⟨sampleId 3, "Scifi", "../songFiles/bensound-scifi.mp3", .int 3, 0, 0⟩]), none⟩)
      ∧ ∃ songs rest : List Song,
          getPopular (liveCtx 1 (sampleId 10)) seedDb (some (.str "2"))
              = (seedDb, ⟨200, true, none, some songs.length, some (.songs songs), none⟩)
            ∧ songs.Pairwise (fun a b => JsNumber.sortLe b.plays a.plays = true)
            ∧ songs.length = min (2 : Int).toNat seedDb.length
            ∧ (songs ++ rest).Perm seedDb
            ∧ ∀ a ∈ songs, ∀ b ∈ rest, JsNumber.sortLe b.plays a.plays = true :=
  ⟨by decide,
    (getPopular_top_by_plays (liveCtx 1 (sampleId 10)) seedDb (some (.str "2")) 2 rfl
      (by decide) (by decide) (by decide)).1⟩

theorem OnlyTouches.trans {oid : ObjectId} {a b c : Song} (h₁ : OnlyTouches oid a b)
    (h₂ : OnlyTouches oid b c) : OnlyTouches oid a c := by
  obtain ⟨hid, hname, hpath, hrest⟩ := h₁
  obtain ⟨hid', hname', hpath', hrest'⟩ := h₂
  refine ⟨hid'.trans hid, hname'.trans hname, hpath'.trans hpath, fun hne => ?_⟩
  have hb : b = a := hrest hne
  subst hb
  exact hrest' hne

theorem forall₂_onlyTouches_trans {oid : ObjectId} {l₁ l₂ l₃ : List Song}
    (h₁ : List.Forall₂ (OnlyTouches oid) l₁ l₂) (h₂ : List.Forall₂ (OnlyTouches oid) l₂ l₃) :
    List.Forall₂ (OnlyTouches oid) l₁ l₃ := by
  induction h₁ generalizing l₃ with
  | nil => cases h₂; exact List.Forall₂.nil
  | cons hab _ ih =>
    cases h₂ with
    | cons hbc hrest => exact List.Forall₂.cons (hab.trans hbc) (ih hrest)

theorem forall₂_onlyTouches_refl (oid : ObjectId) (db : Db) :
    List.Forall₂ (OnlyTouches oid) db db :=
  List.forall₂_same.mpr (fun _ _ => ⟨rfl, rfl, rfl, fun _ => rfl⟩)

theorem forall₂_onlyTouches_modifyId (oid : ObjectId) (db : Db) (f : Song → Song)
    (hf : ∀ t, (f t)._id = t._id ∧ (f t).name = t.name ∧ (f t).path = t.path) :
    List.Forall₂ (OnlyTouches oid) db (modifyId db oid f) := by
  induction db with
  | nil => exact List.Forall₂.nil
  | cons a rest ih =>
    by_cases ha : a._id = oid
    · simp only [modifyId, ha, if_true]
      exact List.Forall₂.cons ⟨(hf a).1, (hf a).2.1, (hf a).2.2, fun hne => absurd ha hne⟩
        (forall₂_onlyTouches_refl oid rest)
    · simp only [modifyId, ha, if_false]
      exact List.Forall₂.cons ⟨rfl, rfl, rfl, fun _ => rfl⟩ ih

theorem roundNat_small {n : Nat} (h : n < 2 ^ 53) : roundNat n = .int n := by
  unfold roundNat
  rw [if_pos h]

theorem JsNumber.addOne_int {p : Int} (hlo : -(2 ^ 53) ≤ p) (hhi : p < 2 ^ 53) :
    (JsNumber.int p).addOne = .int (p + 1) := by
  show roundInt (p + 1) = .int (p + 1)
  unfold roundInt
  by_cases hneg : p + 1 < 0
  · have hsmall : (p + 1).natAbs < 2 ^ 53 := by omega
    have hval : -((p + 1).natAbs : Int) = p + 1 := by omega
    rw [if_pos hneg, roundNat_small hsmall]
    show JsNumber.int (-((p + 1).natAbs : Int)) = .int (p + 1)
    rw [hval]
  · by_cases htop : p + 1 = 2 ^ 53
    · have hp : p = 9007199254740991 := by omega
      subst hp
      decide
    · have hsmall : (p + 1).natAbs < 2 ^ 53 := by omega
      have hval : ((p + 1).natAbs : Int) = p + 1 := by omega
      rw [if_neg hneg, roundNat_small hsmall, hval]

theorem patchPlay_found {ctx : Ctx} {db : Db} {id : String} {oid : ObjectId} {s : Song}
    (hcast : castObjectId id = some oid) (hfound : lookupId db oid = some s)
    (hstore : ctx.fault = none) :
    patchPlay ctx db id
      = (modifyId db oid (fun t => { t with plays := t.plays.addOne, updatedAt := ctx.now }),
          ⟨200, true, some "Play count updated", none,
            some (.song { s with plays := s.plays.addOne, updatedAt := ctx.now }), none⟩) := by
  simp [patchPlay, findByIdAndInc, hcast, hfound, storeCall, hstore, bind, Except.bind, pure,
    Except.pure, Option.elim]

/-- C6, counterexample. One update sets the `plays` of a seeded record to 2^53; the
increment request that follows is answered 200, and the record still has `plays` 2^53,
not 2^53 + 1: the field is a double and the sum rounds back. -/
theorem patchPlay_at_two_pow_53_unchanged :
    lookupId (putSong (liveCtx 1 (sampleId 10)) seedDb "222222222222222222222222"
        (.obj [("plays", .str "9007199254740992")])).1 (sampleId 2)
        = some ⟨sampleId 2, "Energy", "../songFiles/bensound-energy.mp3",
            .int 9007199254740992, 0, 1⟩
      ∧ (patchPlay (liveCtx 2 (sampleId 10))
          (putSong (liveCtx 1 (sampleId 10)) seedDb "222222222222222222222222"
            (.obj [("plays", .str "9007199254740992")])).1
          "222222222222222222222222").2.status = 200
      ∧ lookupId (patchPlay (liveCtx 2 (sampleId 10))
          (putSong (liveCtx 1 (sampleId 10)) seedDb "222222222222222222222222"
            (.obj [("plays", .str "9007199254740992")])).1
          "222222222222222222222222").1 (sampleId 2)
        = some ⟨sampleId 2, "Energy", "../songFiles/bensound-energy.mp3",
            .int 9007199254740992, 0, 2⟩ := by
  decide

/-- C6, amended. On a record present in the store whose `plays` is an integer p with
-2^53 ≤ p and p + N ≤ 2^53, with the store answering, every increment request is
answered 200 with `plays` raised by exactly one, and N increment requests on that id
served one after the other (each is one store step, so every interleaving of them is
such a sequence) leave its `plays` at p + N, its name and path as they were, and every
other record unchanged. -/
theorem patchPlays_adds_count (db : Db) (id : String) (oid : ObjectId) (s : Song)
    (ctxs : List Ctx) (p : Int) (hcast : castObjectId id = some oid)
    (hfound : lookupId db oid = some s) (hstore : ∀ c ∈ ctxs, c.fault = none)
    (hplays : s.plays = .int p) (hlo : -(2 ^ 53) ≤ p) (hhi : p + (ctxs.length : Int) ≤ 2 ^ 53) :
    (∃ s', lookupId (patchPlays db id ctxs) oid = some s'
        ∧ s'.plays = .int (p + (ctxs.length : Int)) ∧ s'.name = s.name ∧ s'.path = s.path)
      ∧ List.Forall₂ (OnlyTouches oid) db (patchPlays db id ctxs)
      ∧ (∀ c ∈ ctxs, (patchPlay c db id).2.status = 200
          ∧ (patchPlay c db id).2.data
              = some (.song { s with plays := .int (p + 1), updatedAt := c.now })) := by
  refine ⟨?_, ?_, ?_⟩
  · induction ctxs generalizing db s p with
    | nil => exact ⟨s, hfound, by simpa using hplays, rfl, rfl⟩
    | cons c rest ih =>
      have hc : c.fault = none := hstore c (List.mem_cons_self _ _)
      have hlen : ((c :: rest).length : Int) = (rest.length : Int) + 1 := by simp
      have hadd : s.plays.addOne = .int (p + 1) := by
        rw [hplays]
        exact JsNumber.addOne_int hlo (by omega)
      have hnext : lookupId (patchPlay c db id).1 oid
          = some { s with plays := s.plays.addOne, updatedAt := c.now } := by
        rw [patchPlay_found hcast hfound hc]
        exact lookupId_modifyId_self (fun _ => rfl) hfound
      obtain ⟨s', hs', hp', hname, hpath⟩ :=
        ih (patchPlay c db id).1 _ (p + 1) hnext
          (fun c' hc' => hstore c' (List.mem_cons_of_mem _ hc')) hadd (by omega) (by omega)
      refine ⟨s', hs', ?_, hname, hpath⟩
      rw [hp', hlen]
      congr 1
      ring
  · induction ctxs generalizing db s p with
    | nil => exact forall₂_onlyTouches_refl oid db
    | cons c rest ih =>
      have hc : c.fault = none := hstore c (List.mem_cons_self _ _)
      have hlen : ((c :: rest).length : Int) = (rest.length : Int) + 1 := by simp
      have hadd : s.plays.addOne = .int (p + 1) := by
        rw [hplays]
        exact JsNumber.addOne_int hlo (by omega)
      have hnext : lookupId (patchPlay c db id).1 oid
          = some { s with plays := s.plays.addOne, updatedAt := c.now } := by
        rw [patchPlay_found hcast hfound hc]
        exact lookupId_modifyId_self (fun _ => rfl) hfound
      have hstep : List.Forall₂ (OnlyTouches oid) db (patchPlay c db id).1 := by
        rw [patchPlay_found hcast hfound hc]
        exact forall₂_onlyTouches_modifyId oid db _ (fun _ => ⟨rfl, rfl, rfl⟩)
      exact forall₂_onlyTouches_trans hstep
        (ih (patchPlay c db id).1 _ (p + 1) hnext
          (fun c' hc' => hstore c' (List.mem_cons_of_mem _ hc')) hadd (by omega) (by omega))
  · intro c hc
    have hpos : 0 < (ctxs.length : Int) := by
      have := List.length_pos_of_mem hc
      omega
    have hadd : s.plays.addOne = .int (p + 1) := by
      rw [hplays]
      exact JsNumber.addOne_int hlo (by omega)
    rw [patchPlay_found hcast hfound (hstore c hc), hadd]
    exact ⟨rfl, rfl⟩

theorem patchPlays_adds_count_witness :
    lookupId (patchPlays seedDb "222222222222222222222222"
          [liveCtx 5 (sampleId 10), liveCtx 6 (sampleId 10), liveCtx 7 (sampleId 10)])
        (sampleId 2)
        = some ⟨sampleId 2, "Energy", "../songFiles/bensound-energy.mp3", .int 5, 0, 7⟩
      ∧ ∃ s', lookupId (patchPlays seedDb "222222222222222222222222"
            [liveCtx 5 (sampleId 10), liveCtx 6 (sampleId 10), liveCtx 7 (sampleId 10)])
          (sampleId 2) = some s'
        ∧ s'.plays = .int (2 + 3) ∧ s'.name = "Energy"
        ∧ s'.path = "../songFiles/bensound-energy.mp3" :=
  ⟨by decide,
    (patchPlays_adds_count seedDb "222222222222222222222222" (sampleId 2)
      ⟨sampleId 2, "Energy", "../songFiles/bensound-energy.mp3", .int 2, 0, 0⟩
      [liveCtx 5 (sampleId 10), liveCtx 6 (sampleId 10), liveCtx 7 (sampleId 10)] 2
      (by decide) (by decide) (by decide) rfl (by decide) (by decide)).1⟩

theorem trimStart_trimEnd_trimStart (l : List Char) :
    trimStart (trimEnd (trimStart l)) = trimEnd (trimStart l) := by
  have hx : List.dropWhile isWhiteSpace (trimStart l) = trimStart l :=
    List.dropWhile_idempotent isWhiteSpace l
  have hy : trimEnd (trimStart l) = (trimStart l).rdropWhile isWhiteSpace := rfl
  obtain ⟨t, ht⟩ : trimEnd (trimStart l) <+: trimStart l := hy ▸ List.rdropWhile_prefix isWhiteSpace (trimStart l)
  cases hcase : trimEnd (trimStart l) with
  | nil => rfl
  | cons a rest =>
    rw [hcase] at ht
    rw [← ht] at hx
    have ha : isWhiteSpace a = false := by
      by_contra hcon
      have hcon' : isWhiteSpace a = true := by simpa using hcon
      have hlen := congrArg List.length hx
      simp only [List.cons_append, List.dropWhile_cons, hcon', if_true, List.length_cons] at hlen
      have hle := (List.dropWhile_suffix isWhiteSpace (l := rest ++ t)).length_le
      omega
    simp [trimStart, List.dropWhile_cons, ha]

theorem trim_trim (s : String) : trim (trim s) = trim s := by
  have h₁ := trimStart_trimEnd_trimStart s.data
  have h₂ : trimEnd (trimEnd (trimStart s.data)) = trimEnd (trimStart s.data) :=
    List.rdropWhile_idempotent isWhiteSpace (trimStart s.data)
  simp only [trim, h₁, h₂]

theorem hexValue_hexChar (d : Fin 16) : hexValue (hexChar d) = some d := by
  revert d
  decide

theorem hexDigits_map_hexChar (ds : List (Fin 16)) : hexDigits (ds.map hexChar) = some ds := by
  induction ds with
  | nil => rfl
  | cons d rest ih => simp [hexDigits, hexValue_hexChar, ih]

theorem castObjectId_toHexString (oid : ObjectId) : castObjectId oid.toHexString = some oid := by
  obtain ⟨ds, hlen⟩ := oid
  simp [castObjectId, ObjectId.toHexString, hexDigits_map_hexChar, hlen]

theorem duplicateKey_of_fresh {db : Db} {s : Song} (h : ∀ t ∈ db, t._id ≠ s._id) :
    duplicateKey db s = false := by
  have h₁ : db.any (fun t => decide (t._id = s._id)) = false := by
    simpa [List.any_eq_false] using h
  simp [duplicateKey, h₁, songIndexes]

theorem lookupId_append_fresh {db : Db} {s : Song} (h : ∀ t ∈ db, t._id ≠ s._id) :
    lookupId (db ++ [s]) s._id = some s := by
  have h₁ : List.find? (fun t => decide (t._id = s._id)) db = none := by
    simpa [List.find?_eq_none] using h
  simp [lookupId, List.find?_append, h₁, List.find?]

theorem trim_decompose (s : String) :
    ∃ pre post : List Char, s.data = pre ++ (trim s).data ++ post
      ∧ (∀ c ∈ pre, isWhiteSpace c = true) ∧ (∀ c ∈ post, isWhiteSpace c = true) := by
  refine ⟨s.data.takeWhile isWhiteSpace,
    ((trimStart s.data).reverse.takeWhile isWhiteSpace).reverse, ?_,
    fun c hc => List.mem_takeWhile_imp hc,
    fun c hc => List.mem_takeWhile_imp (List.mem_reverse.mp hc)⟩
  have h₁ : s.data = s.data.takeWhile isWhiteSpace ++ trimStart s.data :=
    (List.takeWhile_append_dropWhile isWhiteSpace s.data).symm
  have h₂ : trimStart s.data
      = trimEnd (trimStart s.data)
        ++ ((trimStart s.data).reverse.takeWhile isWhiteSpace).reverse := by
    have h := congrArg List.reverse
      (List.takeWhile_append_dropWhile isWhiteSpace (trimStart s.data).reverse)
    rw [List.reverse_append, List.reverse_reverse] at h
    exact h.symm
  show s.data = _ ++ trimEnd (trimStart s.data) ++ _
  rw [List.append_assoc, ← h₂, ← h₁]

theorem trim_head_not_whiteSpace (s : String) (c : Char)
    (h : (trim s).data.head? = some c) : isWhiteSpace c = false := by
  have h₁ : (trim s).data = trimStart (trimEnd (trimStart s.data)) :=
    (trimStart_trimEnd_trimStart s.data).symm
  have h₂ := List.head?_dropWhile_not isWhiteSpace (trimEnd (trimStart s.data))
  rw [h₁] at h
  have h' : (List.dropWhile isWhiteSpace (trimEnd (trimStart s.data))).head? = some c := h
  rw [h'] at h₂
  exact h₂

theorem trim_last_not_whiteSpace (s : String) (c : Char)
    (h : (trim s).data.getLast? = some c) : isWhiteSpace c = false := by
  have h₁ : (trim s).data = ((trimStart s.data).reverse.dropWhile isWhiteSpace).reverse := rfl
  have h₂ := List.head?_dropWhile_not isWhiteSpace (trimStart s.data).reverse
  rw [h₁, List.getLast?_reverse] at h
  rw [h] at h₂
  exact h₂

/-- C7. For a body whose `name` and `path` are strings that are non-empty after trimming,
with the store answering and the generated identifier new to the store, create answers 201
with a new song, and get-by-id on the returned id answers 200 with that record, whose
`plays` is 0 and whose `name` and `path` are the supplied ones trimmed: the supplied
string is the stored one between two runs of white space, and the stored one neither
starts nor ends with white space (" \t Sunny Day \n" is stored as "Sunny Day"). -/
theorem postSong_then_getSongById (ctx ctx' : Ctx) (db : Db) (body : JsonValue) (n p : String)
    (hname : body.field "name" = some (.str n)) (hpath : body.field "path" = some (.str p))
    (hn : trim n ≠ "") (hp : trim p ≠ "")
    (hstore : ctx.fault = none) (hstore' : ctx'.fault = none)
    (hfresh : ∀ t ∈ db, t._id ≠ ctx.newId) :
    ∃ song : Song,
      postSong ctx db body
          = (db ++ [song],
              ⟨201, true, some "Song created successfully", none, some (.song song), none⟩)
        ∧ getSongById ctx' (postSong ctx db body).1 song._id.toHexString
            = ((postSong ctx db body).1, ⟨200, true, none, none, some (.song song), none⟩)
        ∧ song.plays = .int 0
        ∧ (∃ pre post : List Char, n.data = pre ++ song.name.data ++ post
            ∧ (∀ c ∈ pre, isWhiteSpace c = true) ∧ (∀ c ∈ post, isWhiteSpace c = true))
        ∧ (∀ c, song.name.data.head? = some c ∨ song.name.data.getLast? = some c →
            isWhiteSpace c = false)
        ∧ (∃ pre post : List Char, p.data = pre ++ song.path.data ++ post
            ∧ (∀ c ∈ pre, isWhiteSpace c = true) ∧ (∀ c ∈ post, isWhiteSpace c = true))
        ∧ (∀ c, song.path.data.head? = some c ∨ song.path.data.getLast? = some c →
            isWhiteSpace c = false)
        ∧ song.name = trim n ∧ song.path = trim p
        ∧ trim " \t Sunny Day \n" = "Sunny Day"
        ∧ (isWhiteSpace ' ' = true ∧ isWhiteSpace '\t' = true ∧ isWhiteSpace '\n' = true
            ∧ isWhiteSpace '\r' = true ∧ isWhiteSpace 'S' = false
            ∧ isWhiteSpace '.' = false) := by
  have hn' : n ≠ "" := by
    rintro rfl
    exact hn (by decide)
  have hp' : p ≠ "" := by
    rintro rfl
    exact hp (by decide)
  have hsave : saveNewSong ctx db (trim n) (trim p)
      = .ok (db ++ [⟨ctx.newId, trim n, trim p, .int 0, ctx.now, ctx.now⟩],
          ⟨ctx.newId, trim n, trim p, .int 0, ctx.now, ctx.now⟩) := by
    have hdup : duplicateKey db ⟨ctx.newId, trim n, trim p, .int 0, ctx.now, ctx.now⟩ = false :=
      duplicateKey_of_fresh hfresh
    simp [saveNewSong, trim_trim, requiredString, hn, hp, minZero, JsNumber.isNegative,
      storeCall, hstore, hdup, bind, Except.bind, pure, Except.pure]
  have hpost : postSong ctx db body
      = (db ++ [⟨ctx.newId, trim n, trim p, .int 0, ctx.now, ctx.now⟩],
          ⟨201, true, some "Song created successfully", none,
            some (.song ⟨ctx.newId, trim n, trim p, .int 0, ctx.now, ctx.now⟩), none⟩) := by
    simp [postSong, postSongBody, hname, hpath, truthy, hn', hp', callTrim, hsave, bind,
      Except.bind]
  refine ⟨⟨ctx.newId, trim n, trim p, .int 0, ctx.now, ctx.now⟩, hpost, ?_, rfl,
    trim_decompose n, ?_, trim_decompose p, ?_, rfl, rfl, by decide, by decide⟩
  · rw [hpost]
    have hlook : lookupId (db ++ [⟨ctx.newId, trim n, trim p, .int 0, ctx.now, ctx.now⟩])
        ctx.newId = some ⟨ctx.newId, trim n, trim p, .int 0, ctx.now, ctx.now⟩ :=
      lookupId_append_fresh (s := ⟨ctx.newId, trim n, trim p, .int 0, ctx.now, ctx.now⟩) hfresh
    simp [getSongById, findById, castObjectId_toHexString, storeCall, hstore', hlook, bind,
      Except.bind, pure, Except.pure, Option.elim]
  · rintro c (h | h)
    · exact trim_head_not_whiteSpace n c h
    · exact trim_last_not_whiteSpace n c h
  · rintro c (h | h)
    · exact trim_head_not_whiteSpace p c h
    · exact trim_last_not_whiteSpace p c h

theorem postSong_then_getSongById_witness :
    postSong (liveCtx 3 (sampleId 12)) seedDb
        (.obj [("name", .str "  Sunny "), ("path", .str " ../songFiles/sunny.mp3")])
        = (seedDb ++ [⟨sampleId 12, "Sunny", "../songFiles/sunny.mp3", .int 0, 3, 3⟩],
            ⟨201, true, some "Song created successfully", none,
              some (.song ⟨sampleId 12, "Sunny", "../songFiles/sunny.mp3", .int 0, 3, 3⟩),
              none⟩)
      ∧ getSongById (liveCtx 4 (sampleId 13))
          (seedDb ++ [⟨sampleId 12, "Sunny", "../songFiles/sunny.mp3", .int 0, 3, 3⟩])
          "cccccccccccccccccccccccc"
        = (seedDb ++ [⟨sampleId 12, "Sunny", "../songFiles/sunny.mp3", .int 0, 3, 3⟩],
            ⟨200, true, none, none,
              some (.song ⟨sampleId 12, "Sunny", "../songFiles/sunny.mp3", .int 0, 3, 3⟩),
              none⟩)
      ∧ ∃ song : Song,
          postSong (liveCtx 3 (sampleId 12)) seedDb
              (.obj [("name", .str "  Sunny "), ("path", .str " ../songFiles/sunny.mp3")])
              = (seedDb ++ [song],
                  ⟨201, true, some "Song created successfully", none, some (.song song),
                    none⟩)
            ∧ song.plays = .int 0 ∧ song.name = "Sunny"
            ∧ song.path = "../songFiles/sunny.mp3" := by
  obtain ⟨song, h₁, _, h₃, _, _, _, _, h₄, h₅, _⟩ :=
    postSong_then_getSongById (liveCtx 3 (sampleId 12)) (liveCtx 4 (sampleId 13)) seedDb
      (.obj [("name", .str "  Sunny "), ("path", .str " ../songFiles/sunny.mp3")])
      "  Sunny " " ../songFiles/sunny.mp3" rfl rfl (by decide) (by decide) rfl rfl (by decide)
  exact ⟨by decide, by decide, song, h₁, h₃, h₄.trans (by decide), h₅.trans (by decide)⟩

theorem saveNewSong_ok {ctx : Ctx} {db db' : Db} {n p : String} {s : Song}
    (h : saveNewSong ctx db n p = .ok (db', s)) : db' = db ++ [s] ∧ s.plays = .int 0 := by
  simp only [saveNewSong, bind, Except.bind, pure, Except.pure] at h
  repeat' split at h
  all_goals first
    | (cases h
       exact ⟨rfl, rfl⟩)
    | cases h

theorem postSong_db (ctx : Ctx) (db : Db) (body : JsonValue) :
    (postSong ctx db body).1 = db
      ∨ ∃ s : Song, (postSong ctx db body).1 = db ++ [s] ∧ s.plays = .int 0 := by
  unfold postSong
  simp only []
  split
  · exact Or.inl rfl
  · split
    · rename_i db' saved hbody
      right
      refine ⟨saved, ?_⟩
      simp only [postSongBody, bind, Except.bind] at hbody
      repeat' split at hbody
      all_goals first
        | cases hbody
        | exact saveNewSong_ok hbody
    · split
      · exact Or.inl rfl
      · exact Or.inl rfl


theorem buildUpdateData_plays {body : JsonValue} {u : UpdateData}
    (h : buildUpdateData body = .ok u) :
    (body.field "plays" = none ∧ u.plays = none)
      ∨ ∃ v cs, body.field "plays" = some v ∧ v.toJsChars = some cs
          ∧ u.plays = some (mathMaxZero (numberOr (parseIntChars cs) (.int 0))) := by
  simp only [buildUpdateData, bind, Except.bind, pure, Except.pure, Except.map] at h
  cases hplays : body.field "plays" with
  | none =>
    left
    refine ⟨rfl, ?_⟩
    simp only [hplays] at h
    repeat' split at h
    all_goals first
      | (cases h
         rfl)
      | cases h
  | some v =>
    right
    cases hstr : v.toJsChars with
    | none =>
      simp only [hplays, parseInt, hstr] at h
      repeat' split at h
      all_goals cases h
    | some cs =>
      refine ⟨v, cs, rfl, hstr, ?_⟩
      simp only [hplays, parseInt, hstr] at h
      repeat' split at h
      all_goals first
        | (cases h
           rfl)
        | cases h

theorem findByIdAndUpdate_ok {ctx : Ctx} {db db' : Db} {id : String} {u : UpdateData}
    {r : Option Song} (h : findByIdAndUpdate ctx db id u = .ok (db', r)) :
    ∃ oid f, castObjectId id = some oid ∧ db' = modifyId db oid f
      ∧ ∀ t, (f t)._id = t._id ∧ (f t).plays = u.plays.getD t.plays := by
  simp only [findByIdAndUpdate, bind, Except.bind, pure, Except.pure] at h
  cases hc : castObjectId id with
  | none => simp [hc, Option.elim] at h
  | some oid =>
    simp only [hc, Option.elim] at h
    repeat' split at h
    all_goals first
      | (cases h
         exact ⟨oid, _, rfl, rfl, fun _ => ⟨rfl, rfl⟩⟩)
      | cases h

theorem putSong_db (ctx : Ctx) (db : Db) (id : String) (body : JsonValue) :
    (putSong ctx db id body).1 = db
      ∨ ∃ oid f, (putSong ctx db id body).1 = modifyId db oid f
          ∧ ∀ t, (f t)._id = t._id
              ∧ ((body.field "plays" = none ∧ (f t).plays = t.plays)
                ∨ ∃ v cs, body.field "plays" = some v ∧ v.toJsChars = some cs
                    ∧ (f t).plays = mathMaxZero (numberOr (parseIntChars cs) (.int 0))) := by
  unfold putSong
  split
  · exact Or.inl rfl
  · rename_i db' song hres
    right
    cases hb : buildUpdateData body with
    | error e => simp [hb, bind, Except.bind] at hres
    | ok u =>
      simp only [hb, bind, Except.bind] at hres
      obtain ⟨oid, f, _, hdb, hf⟩ := findByIdAndUpdate_ok hres
      refine ⟨oid, f, hdb, fun t => ⟨(hf t).1, ?_⟩⟩
      rcases buildUpdateData_plays hb with ⟨hnone, hu⟩ | ⟨v, cs, hv, hcs, hu⟩
      · exact Or.inl ⟨hnone, by rw [(hf t).2, hu]; rfl⟩
      · exact Or.inr ⟨v, cs, hv, hcs, by rw [(hf t).2, hu]; rfl⟩
  · exact Or.inl rfl

theorem patchPlay_db (ctx : Ctx) (db : Db) (id : String) :
    (patchPlay ctx db id).1 = db
      ∨ ∃ oid f, (patchPlay ctx db id).1 = modifyId db oid f
          ∧ ∀ t, (f t)._id = t._id ∧ (f t).plays = t.plays.addOne := by
  unfold patchPlay
  split
  · exact Or.inl rfl
  · rename_i db' song hres
    right
    simp only [findByIdAndInc, bind, Except.bind, pure, Except.pure] at hres
    cases hc : castObjectId id with
    | none => simp [hc, Option.elim] at hres
    | some oid =>
      simp only [hc, Option.elim] at hres
      split at hres
      · cases hres
      · simp only [Except.ok.injEq, Prod.mk.injEq] at hres
        exact ⟨oid, _, hres.1.symm, fun _ => ⟨rfl, rfl⟩⟩
  · exact Or.inl rfl

theorem deleteSong_db (ctx : Ctx) (db : Db) (id : String) :
    (deleteSong ctx db id).1 = db ∨ ∃ oid, (deleteSong ctx db id).1 = removeId db oid := by
  unfold deleteSong
  split
  · exact Or.inl rfl
  · rename_i db' song hres
    right
    simp only [findByIdAndDelete, bind, Except.bind, pure, Except.pure] at hres
    cases hc : castObjectId id with
    | none => simp [hc, Option.elim] at hres
    | some oid =>
      simp only [hc, Option.elim] at hres
      split at hres
      · cases hres
      · simp only [Except.ok.injEq, Prod.mk.injEq] at hres
        exact ⟨oid, hres.1.symm⟩
  · exact Or.inl rfl

theorem getSongs_db (ctx : Ctx) (db : Db) : (getSongs ctx db).1 = db := by
  unfold getSongs
  split <;> rfl

theorem getSongById_db (ctx : Ctx) (db : Db) (id : String) : (getSongById ctx db id).1 = db := by
  unfold getSongById
  split <;> rfl

theorem getPopular_db (ctx : Ctx) (db : Db) (limit : Option JsonValue) :
    (getPopular ctx db limit).1 = db := by
  unfold getPopular
  split <;> rfl

theorem roundNat_cases (k : Nat) :
    roundNat k = .posInf ∨ ∃ m : Nat, roundNat k = .int (m : Int) := by
  unfold roundNat
  simp only []
  split_ifs <;> first
    | exact Or.inl rfl
    | exact Or.inr ⟨_, rfl⟩

theorem addOne_nonneg {x : JsNumber}
    (h : x = .posInf ∨ ∃ n : Int, 0 ≤ n ∧ x = .int n) :
    x.addOne = .posInf ∨ ∃ n : Int, 0 ≤ n ∧ x.addOne = .int n := by
  rcases h with rfl | ⟨n, hn, rfl⟩
  · exact Or.inl rfl
  · have hneg : ¬ n + 1 < 0 := by omega
    show roundInt (n + 1) = _ ∨ ∃ m : Int, 0 ≤ m ∧ roundInt (n + 1) = .int m
    unfold roundInt
    rw [if_neg hneg]
    rcases roundNat_cases (n + 1).natAbs with h | ⟨m, h⟩
    · exact Or.inl h
    · exact Or.inr ⟨m, Int.natCast_nonneg m, h⟩

theorem handle_plays_step (ctx : Ctx) (db : Db) (req : Request) (t : Song)
    (ht : t ∈ (handle ctx db req).1) :
    t ∈ db
      ∨ (∃ body, req = .create body ∧ t.plays = .int 0)
      ∨ (∃ id body s, req = .update id body ∧ s ∈ db ∧ t._id = s._id
          ∧ ((body.field "plays" = none ∧ t.plays = s.plays)
            ∨ ∃ v cs, body.field "plays" = some v ∧ v.toJsChars = some cs
                ∧ t.plays = mathMaxZero (numberOr (parseIntChars cs) (.int 0))))
      ∨ (∃ id s, req = .play id ∧ s ∈ db ∧ t._id = s._id ∧ t.plays = s.plays.addOne) := by
  cases req with
  | list => exact Or.inl (by simpa [handle, getSongs_db] using ht)
  | get id => exact Or.inl (by simpa [handle, getSongById_db] using ht)
  | popular limit => exact Or.inl (by simpa [handle, getPopular_db] using ht)
  | create body =>
    simp only [handle] at ht
    rcases postSong_db ctx db body with h | ⟨s, h, hs⟩
    · exact Or.inl (h ▸ ht)
    · rw [h, List.mem_append, List.mem_singleton] at ht
      rcases ht with ht | ht
      · exact Or.inl ht
      · exact Or.inr (Or.inl ⟨body, rfl, ht ▸ hs⟩)
  | update id body =>
    simp only [handle] at ht
    rcases putSong_db ctx db id body with h | ⟨oid, f, h, hf⟩
    · exact Or.inl (h ▸ ht)
    · rw [h] at ht
      rcases mem_modifyId ht with ht | ⟨s, hs, _, hts⟩
      · exact Or.inl ht
      · exact Or.inr (Or.inr (Or.inl ⟨id, body, s, rfl, hs, hts ▸ (hf s).1, hts ▸ (hf s).2⟩))
  | play id =>
    simp only [handle] at ht
    rcases patchPlay_db ctx db id with h | ⟨oid, f, h, hf⟩
    · exact Or.inl (h ▸ ht)
    · rw [h] at ht
      rcases mem_modifyId ht with ht | ⟨s, hs, _, hts⟩
      · exact Or.inl ht
      · exact Or.inr (Or.inr (Or.inr ⟨id, s, rfl, hs, hts ▸ (hf s).1, hts ▸ (hf s).2⟩))
  | delete id =>
    simp only [handle] at ht
    rcases deleteSong_db ctx db id with h | ⟨oid, h⟩
    · exact Or.inl (h ▸ ht)
    · rw [h] at ht
      exact Or.inl (mem_removeId ht)

theorem handle_plays_nonneg (ctx : Ctx) (db : Db) (req : Request)
    (hdb : ∀ s ∈ db, s.plays = .posInf ∨ ∃ n : Int, 0 ≤ n ∧ s.plays = .int n) :
    ∀ t ∈ (handle ctx db req).1, t.plays = .posInf ∨ ∃ n : Int, 0 ≤ n ∧ t.plays = .int n := by
  intro t ht
  rcases handle_plays_step ctx db req t ht with h | ⟨_, _, h⟩ | ⟨_, body, s, _, hs, _, h⟩
      | ⟨_, s, _, hs, _, h⟩
  · exact hdb t h
  · exact Or.inr ⟨0, le_refl _, h⟩
  · rcases h with ⟨_, h⟩ | ⟨v, cs, _, _, h⟩
    · rw [h]
      exact hdb s hs
    · rw [h]
      exact mathMaxZero_numberOr_nonneg _
  · rw [h]
    exact addOne_nonneg (hdb s hs)

set_option maxRecDepth 100000 in
/-- C8, counterexample. From the seeded store, one update whose `plays` is a numeral of
400 digits stores Infinity, which `parseInt` returns for it: the store state is reachable
and the `plays` of its second song is no integer. -/
theorem reachable_plays_infinity :
    Reachable (handle (liveCtx 1 (sampleId 10)) seedDb
        (.update "111111111111111111111111"
          (.obj [("plays", .str (String.mk (List.replicate 400 '9')))]))).1
      ∧ (handle (liveCtx 1 (sampleId 10)) seedDb
          (.update "111111111111111111111111"
            (.obj [("plays", .str (String.mk (List.replicate 400 '9')))]))).1.map Song.plays
          = [.int 0, .posInf, .int 2, .int 3, .int 4]
      ∧ ¬ ∃ n : Int, JsNumber.posInf = .int n :=
  ⟨Reachable.step _ _ _ (Reachable.seeded _ _ _), by decide, by simp⟩

/-- C8, amended. In every store state reachable from the empty store or from the five
seeded records by serving any requests of the seven operations, every song's `plays` is a
non-negative integer or Infinity; and one request changes `plays` only so: a record after
the request either was there before unchanged, or was just created with `plays = 0`, or
is the image of a record under an update, with `plays` kept when the body supplies none
and otherwise set to `Math.max(0, n)`, `n` being the number `parseInt` reads from the
value or 0 when it reads none ("7" gives 7, -5 and "abc" give 0), or is the image of a
record under an increment, with `plays` one higher as a double: exactly one higher below
2^53, unchanged at 2^53 and at Infinity. -/
theorem reachable_plays_nonneg (db : Db) (h : Reachable db) :
    (∀ s ∈ db, s.plays = .posInf ∨ ∃ n : Int, 0 ≤ n ∧ s.plays = .int n)
      ∧ (∀ (ctx : Ctx) (req : Request), ∀ t ∈ (handle ctx db req).1,
          t ∈ db
            ∨ (∃ body, req = .create body ∧ t.plays = .int 0)
            ∨ (∃ id body s, req = .update id body ∧ s ∈ db ∧ t._id = s._id
                ∧ ((body.field "plays" = none ∧ t.plays = s.plays)
                  ∨ ∃ v cs, body.field "plays" = some v ∧ v.toJsChars = some cs
                      ∧ t.plays = mathMaxZero (numberOr (parseIntChars cs) (.int 0))))
            ∨ (∃ id s, req = .play id ∧ s ∈ db ∧ t._id = s._id ∧ t.plays = s.plays.addOne))
      ∧ (∀ p : Int, 0 ≤ p → p < 2 ^ 53 → (JsNumber.int p).addOne = .int (p + 1))
      ∧ (JsNumber.int 9007199254740992).addOne = .int 9007199254740992
      ∧ JsNumber.posInf.addOne = .posInf
      ∧ ((JsonValue.str "7").toJsChars = some ['7']
          ∧ mathMaxZero (numberOr (parseIntChars ['7']) (.int 0)) = .int 7)
      ∧ ((JsonValue.num "-5").toJsChars = some ['-', '5']
          ∧ mathMaxZero (numberOr (parseIntChars ['-', '5']) (.int 0)) = .int 0)
      ∧ ((JsonValue.str "abc").toJsChars = some ['a', 'b', 'c']
          ∧ mathMaxZero (numberOr (parseIntChars ['a', 'b', 'c']) (.int 0)) = .int 0) := by
  refine ⟨?_, fun ctx req t ht => handle_plays_step ctx db req t ht,
    fun p hp hlt => JsNumber.addOne_int (by omega) hlt, by decide, rfl, by decide, by decide,
    by decide⟩
  induction h with
  | empty => intro s hs; cases hs
  | seeded ids created updated =>
    intro s hs
    simp only [initMongo, List.mem_cons, List.mem_singleton, List.not_mem_nil, or_false] at hs
    rcases hs with rfl | rfl | rfl | rfl | rfl
    · exact Or.inr ⟨0, by decide, rfl⟩
    · exact Or.inr ⟨1, by decide, rfl⟩
    · exact Or.inr ⟨2, by decide, rfl⟩
    · exact Or.inr ⟨3, by decide, rfl⟩
    · exact Or.inr ⟨4, by decide, rfl⟩
  | step ctx req db _ ih => exact handle_plays_nonneg ctx db req ih

theorem reachable_plays_nonneg_witness :
    Reachable (handle (liveCtx 8 (sampleId 10)) seedDb
        (.update "333333333333333333333333" (.obj [("plays", .num "-5")]))).1
      ∧ (handle (liveCtx 8 (sampleId 10)) seedDb
          (.update "333333333333333333333333" (.obj [("plays", .num "-5")]))).1.map Song.plays
          = [.int 0, .int 1, .int 2, .int 0, .int 4]
      ∧ (handle (liveCtx 9 (sampleId 10)) seedDb
          (.update "333333333333333333333333" (.obj [("plays", .str "7")]))).1.map Song.plays
          = [.int 0, .int 1, .int 2, .int 7, .int 4]
      ∧ ∀ s ∈ (handle (liveCtx 8 (sampleId 10)) seedDb
            (.update "333333333333333333333333" (.obj [("plays", .num "-5")]))).1,
          s.plays = .posInf ∨ ∃ n : Int, 0 ≤ n ∧ s.plays = .int n :=
  ⟨Reachable.step _ _ _ (Reachable.seeded _ _ _), by decide, by decide,
    (reachable_plays_nonneg _ (Reachable.step _ _ _ (Reachable.seeded _ _ _))).1⟩

theorem getSongs_hidesDetail (ctx : Ctx) (db : Db) (e : JsError) :
    HidesDetail ctx db e (fun c => getSongs c db) := by
  unfold HidesDetail
  simp only [getSongs, storeCall, internalError, errorDetail]
  refine ⟨?_, ?_, ?_, fun hmode => ⟨?_, fun e' he' => ?_⟩⟩ <;> simp [*]

theorem getPopular_hidesDetail (ctx : Ctx) (db : Db) (e : JsError) (limit : Option JsonValue) :
    HidesDetail ctx db e (fun c => getPopular c db limit) := by
  unfold HidesDetail
  simp only [getPopular, storeCall, bind, Except.bind, internalError, errorDetail]
  cases popularLimit limit <;>
    refine ⟨?_, ?_, ?_, fun hmode => ⟨?_, fun e' he' => ?_⟩⟩ <;> simp [*]

theorem getSongById_hidesDetail (ctx : Ctx) (db : Db) (e : JsError) (id : String) :
    HidesDetail ctx db e (fun c => getSongById c db id) := by
  unfold HidesDetail
  simp only [getSongById, findById, storeCall, bind, Except.bind, internalError, errorDetail,
    Option.elim]
  cases castObjectId id <;>
    refine ⟨?_, ?_, ?_, fun hmode => ⟨?_, fun e' he' => ?_⟩⟩ <;> simp [*]

theorem patchPlay_hidesDetail (ctx : Ctx) (db : Db) (e : JsError) (id : String) :
    HidesDetail ctx db e (fun c => patchPlay c db id) := by
  unfold HidesDetail
  simp only [patchPlay, findByIdAndInc, storeCall, bind, Except.bind, internalError, errorDetail,
    Option.elim]
  cases castObjectId id <;>
    refine ⟨?_, ?_, ?_, fun hmode => ⟨?_, fun e' he' => ?_⟩⟩ <;> simp [*]

theorem deleteSong_hidesDetail (ctx : Ctx) (db : Db) (e : JsError) (id : String) :
    HidesDetail ctx db e (fun c => deleteSong c db id) := by
  unfold HidesDetail
  simp only [deleteSong, findByIdAndDelete, storeCall, bind, Except.bind, internalError,
    errorDetail, Option.elim]
  cases castObjectId id <;>
    refine ⟨?_, ?_, ?_, fun hmode => ⟨?_, fun e' he' => ?_⟩⟩ <;> simp [*]

theorem postSong_hidesDetail (ctx : Ctx) (db : Db) (e : JsError) (body : JsonValue) :
    HidesDetail ctx db e (fun c => postSong c db body) := by
  unfold HidesDetail
  have hz : minZero (.int 0) = .ok () := rfl
  simp only [postSong, postSongBody, saveNewSong, requiredString, hz, storeCall, bind,
    Except.bind, internalError, errorDetail]
  by_cases hg : (!truthy (body.field "name") || !truthy (body.field "path")) = true
  · refine ⟨?_, ?_, ?_, fun hmode => ⟨?_, fun e' he' => ?_⟩⟩ <;> simp [*]
  · cases hn : callTrim ((body.field "name").getD .null) with
    | error a =>
      (refine ⟨?_, ?_, ?_, fun hmode => ⟨?_, fun e' he' => ?_⟩⟩ <;> (try simp [*]) <;>
          (try split_ifs) <;> (try simp_all))
    | ok n =>
      cases hp : callTrim ((body.field "path").getD .null) with
      | error a =>
        (refine ⟨?_, ?_, ?_, fun hmode => ⟨?_, fun e' he' => ?_⟩⟩ <;> (try simp [*]) <;>
          (try split_ifs) <;> (try simp_all))
      | ok p =>
        by_cases h₁ : trim n = "" <;> by_cases h₂ : p = "" <;>
          by_cases h₃ : e.code = some 11000 <;>
          (refine ⟨?_, ?_, ?_, fun hmode => ⟨?_, fun e' he' => ?_⟩⟩ <;> (try simp [*]) <;>
          (try split_ifs) <;> (try simp_all))

theorem putSong_hidesDetail (ctx : Ctx) (db : Db) (e : JsError) (id : String)
    (body : JsonValue) : HidesDetail ctx db e (fun c => putSong c db id body) := by
  unfold HidesDetail
  simp only [putSong, findByIdAndUpdate, storeCall, bind, Except.bind, internalError,
    errorDetail, Option.elim]
  cases hb : buildUpdateData body with
  | error a =>
    refine ⟨?_, ?_, ?_, fun hmode => ⟨?_, fun e' he' => ?_⟩⟩ <;> simp [*]
  | ok u =>
    cases castObjectId id with
    | none =>
      refine ⟨?_, ?_, ?_, fun hmode => ⟨?_, fun e' he' => ?_⟩⟩ <;> simp [*]
    | some oid =>
      obtain ⟨un, up, ul⟩ := u
      cases un <;> cases up <;> cases ul <;>
        simp only [Option.map, requiredString, minZero] <;>
        (refine ⟨?_, ?_, ?_, fun hmode => ⟨?_, fun e' he' => ?_⟩⟩ <;> (try simp [*]) <;>
          (try split_ifs) <;> (try simp_all))

/-- C10. When the store fails during a request, whatever the operation, the answer is a
failure (success false) with a message and the store is unchanged; outside development
mode, so in production mode, the member `error` is absent or the generic text, and two
runs whose errors differ only in their message text give the same status and body; the
same holds for the global error handler. -/
theorem store_failure_hides_detail (ctx : Ctx) (db : Db) (req : Request) (e : JsError) :
    (handle { ctx with fault := some e } db req).2.success = false
      ∧ (handle { ctx with fault := some e } db req).2.message ≠ none
      ∧ (handle { ctx with fault := some e } db req).1 = db
      ∧ (ctx.nodeEnv ≠ some "development" →
          ((handle { ctx with fault := some e } db req).2.error = none
            ∨ (handle { ctx with fault := some e } db req).2.error
                = some "Internal server error")
          ∧ ∀ e' : JsError, e'.code = e.code →
              handle { ctx with fault := some e' } db req
                = handle { ctx with fault := some e } db req)
      ∧ (globalErrorHandler ctx e).success = false
      ∧ (globalErrorHandler ctx e).message ≠ none
      ∧ (ctx.nodeEnv ≠ some "development" →
          ∀ e' : JsError, globalErrorHandler ctx e' = globalErrorHandler ctx e) := by
  refine ⟨?_, ?_, ?_, ?_, rfl, by simp [globalErrorHandler], fun hmode e' => ?_⟩
  · cases req with
    | list => exact (getSongs_hidesDetail ctx db e).1
    | get id => exact (getSongById_hidesDetail ctx db e id).1
    | create body => exact (postSong_hidesDetail ctx db e body).1
    | update id body => exact (putSong_hidesDetail ctx db e id body).1
    | play id => exact (patchPlay_hidesDetail ctx db e id).1
    | delete id => exact (deleteSong_hidesDetail ctx db e id).1
    | popular limit => exact (getPopular_hidesDetail ctx db e limit).1
  · cases req with
    | list => exact (getSongs_hidesDetail ctx db e).2.1
    | get id => exact (getSongById_hidesDetail ctx db e id).2.1
    | create body => exact (postSong_hidesDetail ctx db e body).2.1
    | update id body => exact (putSong_hidesDetail ctx db e id body).2.1
    | play id => exact (patchPlay_hidesDetail ctx db e id).2.1
    | delete id => exact (deleteSong_hidesDetail ctx db e id).2.1
    | popular limit => exact (getPopular_hidesDetail ctx db e limit).2.1
  · cases req with
    | list => exact (getSongs_hidesDetail ctx db e).2.2.1
    | get id => exact (getSongById_hidesDetail ctx db e id).2.2.1
    | create body => exact (postSong_hidesDetail ctx db e body).2.2.1
    | update id body => exact (putSong_hidesDetail ctx db e id body).2.2.1
    | play id => exact (patchPlay_hidesDetail ctx db e id).2.2.1
    | delete id => exact (deleteSong_hidesDetail ctx db e id).2.2.1
    | popular limit => exact (getPopular_hidesDetail ctx db e limit).2.2.1
  · cases req with
    | list => exact (getSongs_hidesDetail ctx db e).2.2.2
    | get id => exact (getSongById_hidesDetail ctx db e id).2.2.2
    | create body => exact (postSong_hidesDetail ctx db e body).2.2.2
    | update id body => exact (putSong_hidesDetail ctx db e id body).2.2.2
    | play id => exact (patchPlay_hidesDetail ctx db e id).2.2.2
    | delete id => exact (deleteSong_hidesDetail ctx db e id).2.2.2
    | popular limit => exact (getPopular_hidesDetail ctx db e limit).2.2.2
  · simp [globalErrorHandler, errorDetail, hmode]

theorem store_failure_hides_detail_witness :
    handle ⟨some "production", some ⟨none, "connect ECONNREFUSED 10.0.0.5:27017"⟩, 1, sampleId 10⟩
        seedDb (.play "111111111111111111111111")
      = handle ⟨some "production", some ⟨none, "Topology is closed"⟩, 1, sampleId 10⟩
        seedDb (.play "111111111111111111111111") :=
  ((store_failure_hides_detail (liveCtx 1 (sampleId 10)) seedDb
      (.play "111111111111111111111111") ⟨none, "Topology is closed"⟩).2.2.2.1 (by decide)).2
    ⟨none, "connect ECONNREFUSED 10.0.0.5:27017"⟩ rfl

/-- C9. The connection string `mongodb://not defined:27017/db` is configured and the
connection fails with the name-resolution error "getaddrinfo ENOTFOUND not defined": the
`catch` block finds "not defined" in the message, treats the failure as the configuration
error and stops, so no retry is scheduled for a network error, where the claim and the
comment in the code ask for a retry after 5 seconds. -/
theorem connectDB_no_retry_on_not_defined_message :
    mongoURI (fun key => if key = "MONGODB_URI" then some "mongodb://not defined:27017/db"
        else none) = some "mongodb://not defined:27017/db"
      ∧ connectDB (fun key => if key = "MONGODB_URI" then some "mongodb://not defined:27017/db"
          else none) (fun _ => .error ⟨none, "getaddrinfo ENOTFOUND not defined"⟩) = .stopped
      ∧ connectDB (fun key => if key = "MONGODB_URI" then some "mongodb://not defined:27017/db"
          else none) (fun _ => .error ⟨none, "getaddrinfo ENOTFOUND not defined"⟩)
        ≠ .retryIn 5000
      ∧ connectDB (fun key => if key = "MONGODB_URI" then some "mongodb://not defined:27017/db"
          else none) (fun _ => .error ⟨none, "getaddrinfo ENOTFOUND db.example"⟩)
        = .retryIn 5000
      ∧ connectDB (fun _ => none) (fun _ => .ok ()) = .stopped := by
  decide

end SongService
